import Mathlib

/-!
The `model import` command of mesheryctl: shallow embedding and verified properties.

Source: `mesheryctl/internal/cli/root/model/import.go`.

The embedding keeps the source's function names.  Output is modelled as the ordered
list of calls made to the logging / table collaborators (`Event`), and a Go run-time
panic (a failed unchecked type assertion, an index out of range) is modelled by a run
whose value is `none`; the events emitted before the panic are kept.
-/

namespace Meshery

/-! ## Decoded values -/

/-- A value decoded into Go's `interface{}` from the reply body: `nil`, a bool, a
float64 (identified by its decimal text), a string, `[]interface{}` or
`map[string]interface{}` (as an association list; a lookup takes the first binding). -/
inductive Value where
  | null : Value
  | bool (b : Bool) : Value
  | num (text : String) : Value
  | str (s : String) : Value
  | arr (xs : List Value) : Value
  | obj (fields : List (String × Value)) : Value

/-- Go's `map[string]interface{}`. -/
abbrev GoMap := List (String × Value)

/-- Go's map index expression `m[k]`: the bound value, or `nil` when the key is absent. -/
def GoMap.index (m : GoMap) (k : String) : Value :=
  match m with
  | [] => Value.null
  | (k', v) :: rest => if k' = k then v else GoMap.index rest k

/-- Comma-ok assertion `v.(string)` with the flag dropped: the zero value on failure. -/
def Value.stringOrZero : Value → String
  | Value.str s => s
  | _ => ""

/-- Unchecked assertion `v.(string)`: `none` stands for the run-time panic. -/
def Value.assertString : Value → Option String
  | Value.str s => some s
  | _ => none

/-- Unchecked assertion `v.([]interface{})`. -/
def Value.assertSlice : Value → Option (List Value)
  | Value.arr xs => some xs
  | _ => none

/-- Unchecked assertion `v.(map[string]interface{})`. -/
def Value.assertMap : Value → Option GoMap
  | Value.obj m => some m
  | _ => none

/-! ## Errors, events and runs -/

/-- The error values that occur in the file: the type-cast error of `meshkitutils.Cast`,
`utils.ErrInvalidModel`, the wrappers `models.ErrDoRequest`, `models.ErrDataRead`,
`models.ErrUnmarshal`, `utils.ErrFileRead`, `models.ErrFolderStat`, a meshkit
`*errors.Error` with its two guidance lists, and any other error produced by a
collaborator outside the file, identified by its message. -/
inductive Err where
  | typeCast : Err
  | invalidModel : Err
  | doRequest (method url : String) : Err
  | dataRead (inner : Err) : Err
  | unmarshal (inner : Err) : Err
  | fileRead (inner : Err) : Err
  | folderStat (inner : Err) (path : String) : Err
  | meshkit (msg : String) (ProbableCause SuggestedRemediation : List String) : Err
  | external (msg : String) : Err
  deriving DecidableEq, Repr

/-- One call to an output collaborator. -/
inductive Event where
  | logInfo (msg : String) : Event
  | logError (err : Option Err) : Event
  | println (line : String) : Event
  | table (header : List String) (rows : List (List String)) : Event
  deriving DecidableEq, Repr

/-- A run of a Go function: the events it emitted, and its result (`none` when the run
ended in a panic). -/
structure Run (α : Type) where
  out : List Event
  val : Option α

namespace Run

/-- Normal return without output. -/
def ret {α : Type} (a : α) : Run α := ⟨[], some a⟩

/-- A run-time panic. -/
def panic {α : Type} : Run α := ⟨[], none⟩

/-- One output call. -/
def emit (e : Event) : Run Unit := ⟨[e], some ()⟩

/-- Sequencing: the continuation runs only when the first part did not panic. -/
def bind {α β : Type} (r : Run α) (f : α → Run β) : Run β :=
  match r.val with
  | none => ⟨r.out, none⟩
  | some a => ⟨r.out ++ (f a).out, (f a).val⟩

/-- Lifting of an unchecked assertion. -/
def ofOption {α : Type} : Option α → Run α
  | some a => ret a
  | none => panic

/-- Sequencing of a statement with what follows it. -/
def andThen {α : Type} (r : Run Unit) (k : Run α) : Run α := r.bind fun _ => k

/-- The run came to its end (no panic). -/
def completes {α : Type} (r : Run α) : Bool := r.val.isSome

/-- A `for ... range` loop whose body only produces output. -/
def forEach {α : Type} (body : α → Run Unit) : List α → Run Unit
  | [] => ret ()
  | a :: rest => (body a).andThen (forEach body rest)

end Run

/-! ## Collaborators outside the file -/

/-- The rows of a relationship table. -/
abbrev Rows := List (List String)

/-- Behaviour the file takes from outside: `utils.BoldString`, the path separator test
of `path/filepath`, the renderings `fmt` gives to a value under `%s` (when it is not a
string), `%v` and `%T`, the case-folding test of `strings.EqualFold`, and the order in
which a `range` over a Go map visits its entries (some permutation of them).  A path
separator is `/`, or `\\` on Windows; on two ASCII characters the case folding of
`strings.EqualFold` is equality of the lower-case forms (other characters follow the
Unicode simple folding, which is left open). -/
structure Env where
  BoldString : String → String
  isPathSeparator : Char → Bool
  isPathSeparator_spec : ∀ c, isPathSeparator c = true → c = '/' ∨ c = '\\'
  fmtBadS : Value → String
  fmtV : Value → String
  fmtT : Value → String
  foldEq : Char → Char → Bool
  foldEq_ascii : ∀ a b : Char, a.toNat < 128 → b.toNat < 128 →
    (foldEq a b = true ↔ a.toLower = b.toLower)
  rangeOrder : List (String × Rows) → List (String × Rows)
  rangeOrder_perm : ∀ l, (rangeOrder l).Perm l

/-- A concrete environment: ANSI bold, the Unix separator, entries visited in insertion
order, ASCII case folding. -/
def Env.std : Env where
  BoldString := fun s => "\x1b[1m" ++ s ++ "\x1b[0m"
  isPathSeparator := fun c => c = '/'
  isPathSeparator_spec := fun c h => Or.inl (by simpa using h)
  fmtBadS := fun _ => "%!s(?)"
  fmtV := fun _ => "?"
  fmtT := fun _ => "?"
  foldEq := fun a b => a.toLower = b.toLower
  foldEq_ascii := fun a b _ _ => by simp
  rangeOrder := fun l => l
  rangeOrder_perm := fun l => List.Perm.refl l

/-- The call `fmt.Sprintf("%s", v)`. -/
def sprintS (env : Env) : Value → String
  | Value.str s => s
  | v => env.fmtBadS v

/-! ## Strings -/

/-- Go's `unicode.IsSpace`. -/
def isSpace (c : Char) : Bool :=
  let n := c.toNat
  (9 ≤ n && n ≤ 13) || n = 0x20 || n = 0x85 || n = 0xA0 || n = 0x1680 ||
  (0x2000 ≤ n && n ≤ 0x200a) || n = 0x2028 || n = 0x2029 || n = 0x202f ||
  n = 0x205f || n = 0x3000

/-- Go's `strings.TrimSpace`. -/
def TrimSpace (s : String) : String :=
  ⟨((s.data.dropWhile isSpace).reverse.dropWhile isSpace).reverse⟩

/-- The scan of `filepath.Ext`, from the last character backwards: `rev` is what is
left to scan (reversed), `acc` the suffix already passed. -/
def extScan (isSep : Char → Bool) : List Char → List Char → List Char
  | [], _ => []
  | c :: rev, acc =>
    if isSep c then []
    else if c = '.' then c :: acc
    else extScan isSep rev (c :: acc)

/-- Go's `filepath.Ext`. -/
def Ext (env : Env) (path : String) : String :=
  ⟨extScan env.isPathSeparator path.data.reverse []⟩

/-- Splitting of a character list around every occurrence of `sep`; `cur` is the
current piece, reversed. -/
def splitChars (sep : Char) : List Char → List Char → List (List Char)
  | [], cur => [cur.reverse]
  | c :: cs, cur =>
    if c = sep then cur.reverse :: splitChars sep cs []
    else splitChars sep cs (c :: cur)

/-- Go's `strings.Split(s, "/")`. -/
def SplitSlash (s : String) : List String :=
  (splitChars '/' s.data []).map String.mk

/-- Go's `%d` for a non-negative count. -/
def fmtD (n : Nat) : String := toString n

/-! ## The reply -/

/-- Modelled from the spec: the counters `models.EntityCount` (declared outside the
file): model, component, relationship and total error counts, as integers. -/
structure EntityCount where
  CompCount : Int
  RelCount : Int
  ModelCount : Int
  TotalErrCount : Int

/-- Modelled from the spec: the lists `models.EntityTypeSummary` (declared outside the
file): the successful models as strings, the successful components and relationships as
loosely-typed records, the unsuccessful entities as loosely-typed values. -/
structure EntityTypeSummary where
  SuccessfulComponents : List GoMap
  SuccessfulRelationships : List GoMap
  SuccessfulModels : List String
  UnsuccessfulEntityNameWithError : List Value

/-- Modelled from the spec: the decoded reply `models.RegistryAPIResponse` (declared
outside the file). -/
structure RegistryAPIResponse where
  EntityCount : EntityCount
  ErrMsg : String
  EntityTypeSummary : EntityTypeSummary
  ModelName : List String

/-- Modelled from the spec: the generic `meshkitutils.Cast` (outside the file) at
`map[string]interface{}`, a type-checked cast that fails with a type-cast error, also
on `nil`. -/
def castMap : Value → Except Err GoMap
  | Value.obj m => Except.ok m
  | _ => Except.error Err.typeCast

/-- Modelled from the spec: the generic `meshkitutils.Cast` at `[]interface{}`. -/
def castSlice : Value → Except Err (List Value)
  | Value.arr xs => Except.ok xs
  | _ => Except.error Err.typeCast

/-! ## Rendering of the reply -/

/-- The function `displaySummary`. -/
def displaySummary (env : Env) (response : RegistryAPIResponse) : Run Unit :=
  if response.EntityCount.ModelCount = 0 then Run.ret ()
  else Run.emit (Event.logInfo (env.BoldString "SUMMARY" ++ ": " ++ response.ErrMsg))

/-- The function `displayEmtpyModel`. -/
def displayEmtpyModel (response : RegistryAPIResponse) : Bool :=
  if response.ModelName.length ≠ 0 ∧ response.EntityCount.CompCount = 0 ∧
      response.EntityCount.RelCount = 0 then
    if response.EntityCount.TotalErrCount = 0 then false else true
  else true

/-- The function `hasExtension`. -/
def hasExtension (env : Env) (name : String) : Bool :=
  Ext env name ≠ ""

/-- The loop of `displaySuccessfulComponents` that collects the rows. -/
def componentRows (modelName : String) : List GoMap → Rows → Rows
  | [], rows => rows
  | comp :: rest, rows =>
    let displayName := (comp.index "DisplayName").stringOrZero
    let modelDisplayName := (comp.index "Model").stringOrZero
    let modelVersion := (comp.index "Version").stringOrZero
    if modelDisplayName = modelName then
      componentRows modelName rest (rows ++ [[displayName, modelVersion]])
    else componentRows modelName rest rows

/-- The function `displaySuccessfulComponents`. -/
def displaySuccessfulComponents (response : RegistryAPIResponse) (modelName : String) :
    Run Unit :=
  if response.EntityTypeSummary.SuccessfulComponents.length > 0 then
    let header := ["Component", "Version"]
    let rows := componentRows modelName response.EntityTypeSummary.SuccessfulComponents []
    if rows.length > 0 then
      (Run.emit (Event.println "")).andThen (Run.emit (Event.table header rows))
    else Run.ret ()
  else Run.ret ()

/-- The two maps of `displaySuccessfulRelationships`. -/
structure RelState where
  seen : List String
  relationshipMap : List (String × Rows)

/-- The statement `relationshipMap[key] = append(relationshipMap[key], row)`. -/
def mapAppend : List (String × Rows) → String → List String → List (String × Rows)
  | [], key, row => [(key, [row])]
  | (k, rows) :: rest, key, row =>
    if k = key then (k, rows ++ [row]) :: rest
    else (k, rows) :: mapAppend rest key row

/-- The body of the loop over the selectors of one relationship record; `none` is a
panic (a failed assertion, or an empty `from`/`to`). -/
def selectorStep (env : Env) (kind subtype relationshipType : String) (st : RelState)
    (selector : Value) : Option RelState :=
  selector.assertMap.bind fun selectorMap =>
  (selectorMap.index "allow").assertMap.bind fun allow =>
  (allow.index "from").assertSlice.bind fun fromS =>
  (allow.index "to").assertSlice.bind fun toS =>
  fromS.head?.bind fun from0 =>
  from0.assertMap.bind fun fromMap =>
  toS.head?.bind fun to0 =>
  to0.assertMap.bind fun toMap =>
  let fromComponent := sprintS env (fromMap.index "kind")
  let toComponent := sprintS env (toMap.index "kind")
  let key := kind ++ "/" ++ subtype ++ "/" ++ relationshipType
  if key ++ fromComponent ++ toComponent ∈ st.seen then some st
  else some
    { seen := (key ++ fromComponent ++ toComponent) :: st.seen
      relationshipMap := mapAppend st.relationshipMap key [fromComponent, toComponent] }

/-- The loop over the selectors of one record. -/
def selectorLoop (env : Env) (kind subtype relationshipType : String) :
    List Value → RelState → Option RelState
  | [], st => some st
  | selector :: rest, st =>
    (selectorStep env kind subtype relationshipType st selector).bind
      (selectorLoop env kind subtype relationshipType rest)

/-- The body of the loop over `SuccessfulRelationships`. -/
def relStep (env : Env) (model : String) (st : RelState) (rel : GoMap) : Option RelState :=
  (rel.index "Kind").assertString.bind fun kind =>
  (rel.index "Subtype").assertString.bind fun subtype =>
  (rel.index "RelationshipType").assertString.bind fun relationshipType =>
  (rel.index "Model").assertString.bind fun modelName =>
  if modelName ≠ model then some st
  else
    (rel.index "Selectors").assertSlice.bind fun selectors =>
    selectorLoop env kind subtype relationshipType selectors st

/-- The loop over `SuccessfulRelationships`. -/
def relLoop (env : Env) (model : String) : List GoMap → RelState → Option RelState
  | [], st => some st
  | rel :: rest, st => (relStep env model st rel).bind (relLoop env model rest)

/-- The body of the loop over `relationshipMap`: one grouping line and its table. -/
def renderGroup (env : Env) (entry : String × Rows) : Run Unit :=
  if entry.2.length > 0 then
    let boldRelationships :=
      if entry.2.length > 1 then env.BoldString "RELATIONSHIPS:"
      else env.BoldString "RELATIONSHIP:"
    let parts := SplitSlash entry.1
    (Run.emit (Event.println "")).andThen
      ((Run.ofOption (parts.get? 0)).bind fun p0 =>
       (Run.ofOption (parts.get? 1)).bind fun p1 =>
       (Run.ofOption (parts.get? 2)).bind fun p2 =>
       (Run.emit (Event.logInfo ("  " ++ boldRelationships ++ " Kind of " ++ p0 ++
          ", sub type " ++ p1 ++ " and type " ++ p2))).andThen
        (Run.emit (Event.table ["From", "To"] entry.2)))
  else Run.ret ()

/-- The function `displaySuccessfulRelationships`. -/
def displaySuccessfulRelationships (env : Env) (response : RegistryAPIResponse)
    (model : String) : Run Unit :=
  if response.EntityTypeSummary.SuccessfulRelationships.length > 0 then
    match relLoop env model response.EntityTypeSummary.SuccessfulRelationships ⟨[], []⟩ with
    | none => Run.panic
    | some st => Run.forEach (renderGroup env) (env.rangeOrder st.relationshipMap)
  else Run.ret ()

/-- The log line of a failed `[]interface{}` assertion in `buildDescription` and
`buildDescriptionList`. -/
def notSliceMsg (env : Env) (descriptionType : String) (v : Value) : String :=
  "Type assertion to []interface\x7b\x7d failed for " ++ descriptionType ++ ": " ++
    env.fmtV v ++ " (type " ++ env.fmtT v ++ ")"

/-- The log line of an item that is not a string. -/
def notStringMsg (env : Env) (descriptionType : String) (item : Value) : String :=
  "Item in " ++ descriptionType ++ " is not a string: " ++ env.fmtV item ++
    " (type " ++ env.fmtT item ++ ")"

/-- The loop of `buildDescription` / `buildDescriptionList` over the items: `piece`
is what one string item adds to the accumulator. -/
def descriptionLoop (env : Env) (descriptionType : String) (piece : String → String) :
    List Value → String → Run String
  | [], acc => Run.ret acc
  | Value.str str :: rest, acc =>
    descriptionLoop env descriptionType piece rest (acc ++ piece str)
  | item :: rest, acc =>
    (Run.emit (Event.logInfo (notStringMsg env descriptionType item))).andThen
      (descriptionLoop env descriptionType piece rest acc)

/-- The function `buildDescription`. -/
def buildDescription (env : Env) (descriptionInterface : Value) (descriptionType : String) :
    Run String :=
  match descriptionInterface with
  | Value.arr descriptionSlice =>
    (descriptionLoop env descriptionType (fun str => str ++ " ") descriptionSlice "").bind
      fun description => Run.ret (TrimSpace description)
  | v =>
    (Run.emit (Event.logInfo (notSliceMsg env descriptionType v))).andThen (Run.ret "")

/-- The function `buildDescriptionList`. -/
def buildDescriptionList (env : Env) (descriptionInterface : Value)
    (descriptionType : String) : Run String :=
  match descriptionInterface with
  | Value.arr descriptionSlice =>
    (descriptionLoop env descriptionType (fun str => "  - " ++ str ++ "\n")
        descriptionSlice "").bind
      fun descriptionList => Run.ret (TrimSpace descriptionList)
  | v =>
    (Run.emit (Event.logInfo (notSliceMsg env descriptionType v))).andThen (Run.ret "")

/-- The catalog-referral line that `buildEntityTypeLine` logs for an entity of type
`unknown`. -/
def catalogReferral (env : Env) (name longDescription : String) : String :=
  "\n" ++ env.BoldString "ERROR" ++ ": Error encountered while importing model " ++ name ++
    ": \n    " ++ longDescription ++
    "\n\n    Ensure that you are importing an existing model.\n    Create a new model to import or find an existing model in the Meshery \x1b]8;;https://meshery.io/catalog/models\x1b\\catalog\x1b]8;;\x1b\\."

/-- The probable-cause block. -/
def probableCauseBlock (env : Env) (probableCause : String) : String :=
  "\n  " ++ env.BoldString "PROBABLE CAUSE" ++ ":\n  " ++ probableCause

/-- The suggested-remediation block. -/
def suggestedRemediationBlock (env : Env) (suggestedRemediation : String) : String :=
  "\n  " ++ env.BoldString "SUGGESTED REMEDIATION" ++ ":\n  " ++ suggestedRemediation

/-- The counters `compCount`, `relCount` of `buildEntityTypeLine`. -/
structure Counts where
  compCount : Nat
  relCount : Nat
  deriving DecidableEq, Repr

/-- The branch of `buildEntityTypeLine` taken by an entity that was not skipped. -/
def classifyEntity (env : Env) (longDescription probableCause suggestedRemediation : String)
    (name : Value) (entityType : String) (c : Counts) : Run Counts :=
  if entityType = "unknown" then
    (Run.ofOption name.assertString).bind fun nameStr =>
    (Run.emit (Event.logInfo (catalogReferral env nameStr longDescription))).andThen
      ((if probableCause ≠ "" then
          Run.emit (Event.logInfo (probableCauseBlock env probableCause))
        else Run.ret ()).andThen
        ((if suggestedRemediation ≠ "" then
            Run.emit (Event.logInfo (suggestedRemediationBlock env suggestedRemediation))
          else Run.ret ()).andThen (Run.ret c)))
  else if entityType = "component" then Run.ret { c with compCount := c.compCount + 1 }
  else if entityType = "relationship" then Run.ret { c with relCount := c.relCount + 1 }
  else Run.ret c

/-- The body of the loop of `buildEntityTypeLine` for the entity at index `i`. -/
def entityStep (env : Env) (entityTypes : List Value)
    (longDescription probableCause suggestedRemediation modelName : String)
    (i : Nat) (name : Value) (c : Counts) : Run Counts :=
  (if i < entityTypes.length then
      Run.ofOption ((entityTypes.get? i).bind Value.assertString)
    else Run.ret "").bind fun entityType =>
  if modelName ≠ "" then
    (Run.ofOption name.assertString).bind fun nameStr =>
    if modelName ≠ nameStr then Run.ret c
    else classifyEntity env longDescription probableCause suggestedRemediation name
      entityType c
  else
    if entityType ≠ "Unknown" then Run.ret c
    else classifyEntity env longDescription probableCause suggestedRemediation name
      entityType c

/-- The loop of `buildEntityTypeLine` over `names`, from index `i` on. -/
def entityLoop (env : Env) (entityTypes : List Value)
    (longDescription probableCause suggestedRemediation modelName : String) :
    Nat → List Value → Counts → Run Counts
  | _, [], c => Run.ret c
  | i, name :: rest, c =>
    (entityStep env entityTypes longDescription probableCause suggestedRemediation
        modelName i name c).bind
      (entityLoop env entityTypes longDescription probableCause suggestedRemediation
        modelName (i + 1) rest)

/-- The line that `buildEntityTypeLine` composes from the two counters. -/
def countLine (c : Counts) : String :=
  let l1 :=
    if c.compCount > 0 then
      " " ++ fmtD c.compCount ++ " " ++ (if c.compCount > 1 then "entities" else "entity") ++
        " of type component"
    else ""
  let l2 := if c.compCount > 0 ∧ c.relCount > 0 then l1 ++ " and" else l1
  if c.relCount > 0 then
    l2 ++ (" " ++ fmtD c.relCount ++ " " ++
      (if c.relCount > 1 then "entities" else "entity") ++ " of type relationship")
  else l2

/-- The function `buildEntityTypeLine`. -/
def buildEntityTypeLine (env : Env) (names entityTypes : List Value)
    (longDescription probableCause suggestedRemediation modelName : String) : Run String :=
  (entityLoop env entityTypes longDescription probableCause suggestedRemediation modelName
      0 names ⟨0, 0⟩).bind fun c => Run.ret (countLine c)

/-- The error narrative of `displayUnsuccessfulEntities`. -/
def importDidNotOccur (env : Env) (EntityTypeLine longDescription : String) : String :=
  "  " ++ env.BoldString "ERROR" ++ ": Import did not occur for" ++ EntityTypeLine ++
    " error: \n  " ++ longDescription

/-- The part of the loop body of `displayUnsuccessfulEntities` that follows the four
casts. -/
def reportEntity (env : Env) (names entityTypes : List Value) (errorDetails : GoMap)
    (modelName : String) : Run Unit :=
  (buildDescription env (errorDetails.index "LongDescription") "LongDescription").bind
    fun longDescription =>
  (buildDescriptionList env (errorDetails.index "ProbableCause") "ProbableCause").bind
    fun probableCause =>
  (buildDescriptionList env (errorDetails.index "SuggestedRemediation")
      "SuggestedRemediation").bind
    fun suggestedRemediation =>
  (buildEntityTypeLine env names entityTypes longDescription probableCause
      suggestedRemediation modelName).bind
    fun EntityTypeLine =>
  if EntityTypeLine ≠ "" then
    (Run.emit (Event.println "")).andThen
      (Run.emit (Event.logInfo (importDidNotOccur env EntityTypeLine longDescription)))
  else Run.ret ()

/-- The body of the loop of `displayUnsuccessfulEntities` for one entry. -/
def displayEntity (env : Env) (modelName : String) (entity : Value) : Run Unit :=
  match castMap entity with
  | Except.error err => Run.emit (Event.logError (some err))
  | Except.ok entityMap =>
    match castSlice (entityMap.index "name") with
    | Except.error err => Run.emit (Event.logError (some err))
    | Except.ok names =>
      match castSlice (entityMap.index "entityType") with
      | Except.error err => Run.emit (Event.logError (some err))
      | Except.ok entityTypes =>
        match castMap (entityMap.index "error") with
        | Except.error err => Run.emit (Event.logError (some err))
        | Except.ok errorDetails =>
          if errorDetails.length = 0 then Run.emit (Event.logError none)
          else reportEntity env names entityTypes errorDetails modelName

/-- The function `displayUnsuccessfulEntities`. -/
def displayUnsuccessfulEntities (env : Env) (response : RegistryAPIResponse)
    (modelName : String) : Run Unit :=
  if response.EntityTypeSummary.UnsuccessfulEntityNameWithError.length > 0 then
    Run.forEach (displayEntity env modelName)
      response.EntityTypeSummary.UnsuccessfulEntityNameWithError
  else Run.ret ()

/-- The first loop of `displayEntitisIfModel`: the two buckets, as
`(modelsWithoutExtension, modelsWithExtension)`. -/
def bucketModels (env : Env) : List String → List String × List String →
    List String × List String
  | [], acc => acc
  | model :: rest, acc =>
    if model ≠ "" then
      if hasExtension env model then bucketModels env rest (acc.1, acc.2 ++ [model])
      else bucketModels env rest (acc.1 ++ [model], acc.2)
    else bucketModels env rest acc

/-- The header line of a model without extension. -/
def modelHeader (env : Env) (model : String) : String :=
  "\n" ++ env.BoldString "MODEL" ++ ": " ++ model

/-- The three display calls that `displayModelInfo` makes for every model. -/
def displayModelBody (env : Env) (response : RegistryAPIResponse) (model : String) :
    Run Unit :=
  (displaySuccessfulComponents response model).andThen
    ((displaySuccessfulRelationships env response model).andThen
      (displayUnsuccessfulEntities env response model))

/-- The closure `displayModelInfo` of `displayEntitisIfModel`. -/
def displayModelInfo (env : Env) (response : RegistryAPIResponse) (model : String)
    (hasExt : Bool) : Run Unit :=
  (if !hasExt then Run.emit (Event.logInfo (modelHeader env model)) else Run.ret ()).andThen
    (displayModelBody env response model)

/-- The function `displayEntitisIfModel`. -/
def displayEntitisIfModel (env : Env) (response : RegistryAPIResponse) : Run Unit :=
  let buckets := bucketModels env response.ModelName ([], [])
  (Run.forEach (fun model => displayModelInfo env response model false) buckets.1).andThen
    (Run.forEach (fun model => displayModelInfo env response model true) buckets.2)

/-- The function `displayEntities`. -/
def displayEntities (env : Env) (response : RegistryAPIResponse) : Run Unit :=
  (displaySummary env response).andThen
    (if !displayEmtpyModel response then Run.ret ()
     else displayEntitisIfModel env response)

/-- The loop of `ModelNames`: `builder` is the text written so far, `seen` the names
written so far. -/
def modelNamesLoop : List String → String → List String → String
  | [], builder, _ => builder
  | model :: rest, builder, seen =>
    if model ≠ "" then
      if model ∉ seen then
        let separated := if builder.length > 0 then builder ++ ", " else builder
        modelNamesLoop rest (separated ++ model) (model :: seen)
      else modelNamesLoop rest builder seen
    else modelNamesLoop rest builder seen

/-- The function `ModelNames`. -/
def ModelNames (response : RegistryAPIResponse) : String :=
  modelNamesLoop response.ModelName "" []

/-! ## The request -/

/-- A byte. -/
abbrev Byte := Fin 256

/-- The alphabet of `base64.StdEncoding`. -/
def b64Alphabet : List Char :=
  "ABCDEFGHIJKLMNOPQRSTUVWXYZabcdefghijklmnopqrstuvwxyz0123456789+/".data

/-- The character of a 6-bit group. -/
def b64Char (n : Nat) : Char := b64Alphabet.getD n 'A'

/-- The groups of `base64.StdEncoding.EncodeToString`: three bytes give four
characters, a rest of one or two bytes is padded with `=`. -/
def b64Encode : List Byte → List Char
  | [] => []
  | [a] => [b64Char (a.val / 4), b64Char (a.val % 4 * 16), '=', '=']
  | [a, b] =>
    [b64Char (a.val / 4), b64Char (a.val % 4 * 16 + b.val / 16), b64Char (b.val % 16 * 4), '=']
  | a :: b :: c :: rest =>
    b64Char (a.val / 4) :: b64Char (a.val % 4 * 16 + b.val / 16) ::
      b64Char (b.val % 16 * 4 + c.val / 64) :: b64Char (c.val % 64) :: b64Encode rest

/-- Go's `base64.StdEncoding.EncodeToString`; a nil slice encodes like an empty one. -/
def EncodeToString (data : Option (List Byte)) : String :=
  ⟨b64Encode (data.getD [])⟩

/-- Modelled from the spec: the structured model field of the request body, which the
file only fills through the generic decode; kept as the decoded document. -/
structure ModelDefinition where
  doc : Value

/-- Modelled from the spec: the `importBody` object of `schemav1beta1.ImportRequest`. -/
structure ImportBody where
  ModelFile : Option (List Byte)
  ModelCsv : String
  ComponentCsv : String
  RelationshipCSV : String
  Model : Option ModelDefinition
  Url : String
  FileName : String

/-- Modelled from the spec: the request `schemav1beta1.ImportRequest`. -/
structure ImportRequest where
  UploadType : String
  ImportBody : ImportBody
  Register : Bool

/-- The zero value of `ImportRequest`. -/
def ImportRequest.zero : ImportRequest :=
  ⟨"", ⟨none, "", "", "", none, "", ""⟩, false⟩

/-- An outgoing HTTP request, as far as the file touches it. -/
structure HttpRequest where
  Method : String
  URL : String
  Body : List Byte
  Header : List (String × String)

/-- An HTTP reply: its status, the method of the request it answers, and what
`io.ReadAll` gives for its body. -/
structure HttpResponse where
  StatusCode : Nat
  RequestMethod : String
  Body : Except Err (List Byte)

/-- An entry of a directory listing. -/
structure DirEntry where
  Name : String
  IsDir : Bool

/-- The collaborators of the command outside the file: configuration, codecs, the HTTP
transport, URL validation, the file system and the CSV locator. -/
structure World where
  GetBaseMesheryURL : Except Err String
  UnmarshalModel : List Byte → Except Err ModelDefinition
  Marshal : ImportRequest → Except Err (List Byte)
  NewRequest : String → String → List Byte → Except Err HttpRequest
  MakeRequest : HttpRequest → Except Err HttpResponse
  UnmarshalResponse : List Byte → Except Err RegistryAPIResponse
  IsValidUrl : String → Bool
  ReadDir : String → Except Err (List DirEntry)
  GetCsv : String → Except Err (String × String × String)
  ReadFile : String → Except Err (List Byte)
  StatIsDir : String → Except Err Bool
  Compress : String → Except Err (List Byte)
  Base : String → String
  MesheryFolder : String

/-- The part of `registerModel` that fills the request body according to `dataType`. -/
def buildImportRequest (w : World) (data componentData relationshipData : Option (List Byte))
    (filename dataType sourceURI : String) (register : Bool) : Except Err ImportRequest :=
  let r0 : ImportRequest := { ImportRequest.zero with UploadType := dataType }
  let filled : Except Err ImportRequest :=
    if dataType = "csv" then
      Except.ok { r0 with ImportBody := { r0.ImportBody with
        ModelCsv := "data:text/csv;base64," ++ EncodeToString data
        ComponentCsv := "data:text/csv;base64," ++ EncodeToString componentData
        RelationshipCSV := "data:text/csv;base64," ++ EncodeToString relationshipData } }
    else if dataType = "file" then
      Except.ok { r0 with ImportBody := { r0.ImportBody with ModelFile := data } }
    else
      match data with
      | some bytes =>
        match w.UnmarshalModel bytes with
        | Except.error err => Except.error err
        | Except.ok m => Except.ok { r0 with ImportBody := { r0.ImportBody with Model := some m } }
      | none => Except.ok r0
  match filled with
  | Except.error err => Except.error err
  | Except.ok r =>
    Except.ok { r with
      ImportBody := { r.ImportBody with Url := sourceURI, FileName := filename }
      Register := register }

/-- The function `registerModel`: the returned error (`none` for `nil`), with the output
of the run. -/
def registerModel (env : Env) (w : World)
    (data componentData relationshipData : Option (List Byte))
    (filename dataType sourceURI : String) (register : Bool) : Run (Option Err) :=
  match w.GetBaseMesheryURL with
  | Except.error err => Run.ret (some err)
  | Except.ok baseURL =>
    let url := baseURL ++ "/api/meshmodels/register"
    match buildImportRequest w data componentData relationshipData filename dataType
        sourceURI register with
    | Except.error err => Run.ret (some err)
    | Except.ok importRequest =>
      match w.Marshal importRequest with
      | Except.error err => Run.ret (some err)
      | Except.ok requestBody =>
        match w.NewRequest "POST" url requestBody with
        | Except.error err => Run.ret (some err)
        | Except.ok req0 =>
          let req := { req0 with Header := ("Content-Type", "application/json") :: req0.Header }
          match w.MakeRequest req with
          | Except.error err => Run.ret (some err)
          | Except.ok resp =>
            if resp.StatusCode ≠ 200 then
              Run.ret (some (Err.doRequest resp.RequestMethod url))
            else
              match resp.Body with
              | Except.error err => Run.ret (some (Err.dataRead err))
              | Except.ok bodyBytes =>
                match w.UnmarshalResponse bodyBytes with
                | Except.error err => Run.ret (some (Err.unmarshal err))
                | Except.ok response =>
                  (displayEntities env response).andThen
                    (if response.EntityTypeSummary.SuccessfulModels.length = 0 then
                      Run.ret (some Err.invalidModel)
                    else Run.ret none)

/-- The test `strings.EqualFold` on character lists. -/
def equalFoldChars (env : Env) : List Char → List Char → Bool
  | [], [] => true
  | a :: s, b :: t => env.foldEq a b && equalFoldChars env s t
  | _, _ => false

/-- Go's `strings.EqualFold`. -/
def EqualFold (env : Env) (s t : String) : Bool := equalFoldChars env s.data t.data

/-- The loop of `hasCSVs` over the directory entries. -/
def anyCsv (env : Env) : List DirEntry → Bool
  | [] => false
  | f :: rest =>
    if !f.IsDir && EqualFold env (Ext env f.Name) ".csv" then true else anyCsv env rest

/-- The function `hasCSVs`. -/
def hasCSVs (env : Env) (w : World) (path : String) : Bool :=
  match w.ReadDir path with
  | Except.error _ => false
  | Except.ok files => anyCsv env files

/-- Go's `strings.Join`. -/
def Join (sep : String) : List String → String
  | [] => ""
  | [a] => a
  | a :: rest => a ++ sep ++ Join sep rest

/-- The output of the command when the CSV locator fails. -/
def reportCsvError (env : Env) (err : Err) : Run Unit :=
  (Run.emit (Event.logInfo (env.BoldString "ERROR" ++ ": " ++
      "Error importing model using CSV files"))).andThen
    (match err with
     | Err.meshkit _ ProbableCause SuggestedRemediation =>
       (if ProbableCause.length ≠ 0 then
          Run.emit (Event.logInfo (probableCauseBlock env (Join ". " ProbableCause)))
        else Run.ret ()).andThen
        (if SuggestedRemediation.length ≠ 0 then
          Run.emit (Event.logInfo
            (suggestedRemediationBlock env (Join ". " SuggestedRemediation)))
        else Run.ret ())
     | e => Run.emit (Event.logError (some e)))

/-- The CSV branch of `RunE`, after the locator has answered. -/
def runCsv (env : Env) (w : World) (path : String) : Run (Option Err) :=
  match w.GetCsv path with
  | Except.error err => (reportCsvError env err).andThen (Run.ret (some err))
  | Except.ok (modelcsvpath, componentcsvpath, relationshipcsvpath) =>
    match w.ReadFile modelcsvpath with
    | Except.error err => Run.ret (some (Err.fileRead err))
    | Except.ok modelData =>
      match w.ReadFile componentcsvpath with
      | Except.error err => Run.ret (some (Err.fileRead err))
      | Except.ok componentData =>
        match w.ReadFile relationshipcsvpath with
        | Except.error err => Run.ret (some (Err.fileRead err))
        | Except.ok relationshipData =>
          (registerModel env w (some modelData) (some componentData) (some relationshipData)
              "model.csv" "csv" "" true).bind fun err =>
          match err with
          | some e => Run.ret (some e)
          | none =>
            (Run.emit (Event.logInfo ("Model can be accessed from " ++
                (w.MesheryFolder ++ "/models")))).andThen
              ((Run.emit (Event.logInfo ("Logs for the csv generation can be accessed " ++
                  (w.MesheryFolder ++ "/logs/registry")))).andThen (Run.ret none))

/-- The file branch of `RunE`: a directory is compressed, a file is read. -/
def runFile (env : Env) (w : World) (path : String) : Run (Option Err) :=
  match w.StatIsDir path with
  | Except.error err => Run.ret (some (Err.folderStat err path))
  | Except.ok isDir =>
    let packed : Except Err (List Byte × String) :=
      if isDir then
        match w.Compress path with
        | Except.error err => Except.error err
        | Except.ok buf => Except.ok (buf, w.Base path ++ ".tar.gz")
      else
        match w.ReadFile path with
        | Except.error err => Except.error (Err.fileRead err)
        | Except.ok fileData => Except.ok (fileData, w.Base path)
    match packed with
    | Except.error err => Run.ret (some err)
    | Except.ok (tarData, fileName) =>
      (registerModel env w (some tarData) none none fileName "file" "" true).bind fun err =>
      match err with
      | some e => Run.ret (some e)
      | none => Run.ret none

/-- The constant `errMsg` of `importModelCmd.Args`: the fixed help message. -/
def errMsg : String :=
  "Usage: mesheryctl model import [ file | filePath | URL ]\nRun \x27mesheryctl model import --help\x27 to see detailed help message"

/-- The function `importModelCmd.Args`: `file` is the value of the `--file` flag, `args`
the positional arguments; the result is the usage error, `none` when the invocation is
accepted. -/
def Args (file : String) (args : List String) : Option Err :=
  if file = "" ∧ args.length = 0 then
    some (Err.external ("[ file | filepath | URL ] isn\x27t specified\n\n" ++ errMsg))
  else if args.length > 1 then
    some (Err.external ("too many arguments\n\n" ++ errMsg))
  else none

/-- The function `importModelCmd.RunE`: `file` is the value of the `--file` flag, `args`
the positional arguments; the result is the error handed to the top level. -/
def RunE (env : Env) (w : World) (file : String) (args : List String) : Run (Option Err) :=
  (if file ≠ "" then Run.ret file else Run.ofOption args.head?).bind fun path =>
  if w.IsValidUrl path then
    (registerModel env w none none none "" "urlImport" path true).bind fun err =>
    match err with
    | some e => (Run.emit (Event.logError (some e))).andThen (Run.ret none)
    | none => Run.ret none
  else if hasCSVs env w path then runCsv env w path
  else runFile env w path

/-! ## Predicates used in the statements -/

/-- The value is a string. -/
def Value.isString : Value → Bool
  | Value.str _ => true
  | _ => false

/-- The value is a sequence of strings. -/
def Value.isStringSeq : Value → Bool
  | Value.arr xs => xs.all Value.isString
  | _ => false

/-- The value is a non-empty mapping. -/
def Value.isNonEmptyMap : Value → Bool
  | Value.obj (_ :: _) => true
  | _ => false

/-- A well-formed error entry: a mapping whose `name` and `entityType` are sequences of
strings and whose `error` is a non-empty mapping. -/
def wellFormedEntry : Value → Bool
  | Value.obj m =>
    (GoMap.index m "name").isStringSeq && (GoMap.index m "entityType").isStringSeq &&
      (GoMap.index m "error").isNonEmptyMap
  | _ => false

/-- An error entry whose `error` field is not a mapping, or is an empty mapping. -/
def malformedErrorField : Value → Bool
  | Value.obj m => !(GoMap.index m "error").isNonEmptyMap
  | _ => false

/-- The reply with another list of unsuccessful entities. -/
def withUnsuccessful (response : RegistryAPIResponse) (l : List Value) :
    RegistryAPIResponse :=
  { response with
    EntityTypeSummary := { response.EntityTypeSummary with
      UnsuccessfulEntityNameWithError := l } }

/-- The event is part of the report proper, not a call to the error log. -/
def Event.isNarrative : Event → Bool
  | Event.logError _ => false
  | _ => true

/-- The type read for the entity at index `i`: `entityTypes[i]`, or the empty string
past the end of `entityTypes`. -/
def typeAt (entityTypes : List String) (i : Nat) : String := (entityTypes.get? i).getD ""

/-- The entities of an error entry as (name, type) pairs, index-aligned, from index `i`
on. -/
def entityPairs (entityTypes : List String) : Nat → List String → List (String × String)
  | _, [] => []
  | i, name :: rest => (name, typeAt entityTypes i) :: entityPairs entityTypes (i + 1) rest

/-- The catalog-referral narrative of one entity: the referral line, then the
probable-cause and suggested-remediation blocks when they are not empty. -/
def referralBlock (env : Env) (name longDescription probableCause suggestedRemediation : String) :
    List Event :=
  [Event.logInfo (catalogReferral env name longDescription)] ++
    (if probableCause ≠ "" then [Event.logInfo (probableCauseBlock env probableCause)]
     else []) ++
    (if suggestedRemediation ≠ "" then
      [Event.logInfo (suggestedRemediationBlock env suggestedRemediation)]
     else [])

/-- The catalog-referral narratives of the entities named `m` whose type is `unknown`, in
order. -/
def referralEvents (env : Env) (longDescription probableCause suggestedRemediation m : String) :
    List (String × String) → List Event
  | [] => []
  | p :: rest =>
    (if p.1 = m ∧ p.2 = "unknown" then
      referralBlock env p.1 longDescription probableCause suggestedRemediation
     else []) ++
    referralEvents env longDescription probableCause suggestedRemediation m rest

/-- The number of entities named `m` whose type is `t`. -/
def attributedCount (m t : String) (pairs : List (String × String)) : Nat :=
  pairs.countP fun p => decide (p.1 = m) && decide (p.2 = t)

/-! ## Sample replies -/

/-- An error entry with the given names, types and `error` field. -/
def errorEntry (names entityTypes : List String) (error : Value) : Value :=
  Value.obj [("name", Value.arr (names.map Value.str)),
    ("entityType", Value.arr (entityTypes.map Value.str)), ("error", error)]

/-- An `error` mapping with a one-sentence long description. -/
def errorDetail (long : String) : Value :=
  Value.obj [("LongDescription", Value.arr [Value.str long]),
    ("ProbableCause", Value.arr []), ("SuggestedRemediation", Value.arr [])]

/-- A reply with nothing in it. -/
def emptyResponse : RegistryAPIResponse :=
  { EntityCount := ⟨0, 0, 0, 0⟩, ErrMsg := "", EntityTypeSummary := ⟨[], [], [], []⟩,
    ModelName := [] }

/-- A reply with two well-formed error entries around one whose `error` is a string. -/
def sampleMalformedError : RegistryAPIResponse :=
  withUnsuccessful emptyResponse
    ([errorEntry ["Kubernetes"] ["component"] (errorDetail "schema mismatch")] ++
      errorEntry ["Kubernetes"] ["component"] (Value.str "oops") ::
      [errorEntry ["Kubernetes", "Kubernetes"] ["relationship", "relationship"]
        (errorDetail "no selector")])

/-- A selector with one allow-rule from `fromKind` to `toKind`. -/
def selector (fromKind toKind : String) : Value :=
  Value.obj [("allow", Value.obj
    [("from", Value.arr [Value.obj [("kind", Value.str fromKind)]]),
     ("to", Value.arr [Value.obj [("kind", Value.str toKind)]])])]

/-- A relationship record. -/
def relRecord (kind : Value) (subtype relationshipType model : String)
    (selectors : List Value) : GoMap :=
  [("Kind", kind), ("Subtype", Value.str subtype),
   ("RelationshipType", Value.str relationshipType), ("Model", Value.str model),
   ("Selectors", Value.arr selectors)]

/-- The reply with another list of successful relationships. -/
def withRelationships (response : RegistryAPIResponse) (l : List GoMap) :
    RegistryAPIResponse :=
  { response with
    EntityTypeSummary := { response.EntityTypeSummary with SuccessfulRelationships := l } }

/-- A well-formed relationship record of model `Kubernetes`. -/
def sampleRel : GoMap :=
  relRecord (Value.str "Edge") "Network" "binding" "Kubernetes" [selector "Service" "Pod"]

/-- A relationship record of another model whose `Kind` is a number. -/
def sampleBadKindRel : GoMap :=
  relRecord (Value.num "1") "Network" "binding" "Istio" [selector "Gateway" "Pod"]

/-- One relationship record whose selectors are, in order, the edges `ab → c`,
`a → bc` and `a → bc` again. -/
def sampleCollidingRel : GoMap :=
  relRecord (Value.str "Edge") "Network" "binding" "Kubernetes"
    [selector "ab" "c", selector "a" "bc", selector "a" "bc"]

/-- The component record of the end-to-end scenario. -/
def podComponent : GoMap :=
  [("DisplayName", Value.str "Pod"), ("Model", Value.str "Kubernetes"),
   ("Version", Value.str "v1")]

/-- The scenario reply with `modelNames = ["Kubernetes"]` and all of the component,
relationship and error counts zero. -/
def scenarioZeroCounts : RegistryAPIResponse :=
  { EntityCount := { CompCount := 0, RelCount := 0, ModelCount := 1, TotalErrCount := 0 },
    ErrMsg := "Imported 1 model",
    EntityTypeSummary := ⟨[podComponent], [], ["Kubernetes"], []⟩,
    ModelName := ["Kubernetes"] }

/-- The scenario reply with a component count of one and no entry in `modelNames`. -/
def scenarioNoModelName : RegistryAPIResponse :=
  { EntityCount := { CompCount := 1, RelCount := 0, ModelCount := 1, TotalErrCount := 0 },
    ErrMsg := "Imported 1 model",
    EntityTypeSummary := ⟨[podComponent], [], ["Kubernetes"], []⟩,
    ModelName := [] }

/-- The scenario reply with `modelNames = ["Kubernetes"]` and a component count of one. -/
def scenarioReply : RegistryAPIResponse :=
  { EntityCount := { CompCount := 1, RelCount := 0, ModelCount := 1, TotalErrCount := 0 },
    ErrMsg := "Imported 1 model",
    EntityTypeSummary := ⟨[podComponent], [], ["Kubernetes"], []⟩,
    ModelName := ["Kubernetes"] }

/-- A world in which the configuration, the codecs and the file system answer, the
transport gives `reply`, the reply body decodes to `decoded`, and a path is a valid URL
exactly when `validUrl` says so; directories have no CSV files. -/
def sampleWorld (reply : Except Err HttpResponse) (decoded : Except Err RegistryAPIResponse)
    (validUrl : Bool) : World where
  GetBaseMesheryURL := Except.ok "http://localhost:9081"
  UnmarshalModel := fun _ => Except.ok ⟨Value.null⟩
  Marshal := fun _ => Except.ok []
  NewRequest := fun method url body => Except.ok ⟨method, url, body, []⟩
  MakeRequest := fun _ => reply
  UnmarshalResponse := fun _ => decoded
  IsValidUrl := fun _ => validUrl
  ReadDir := fun _ => Except.ok []
  GetCsv := fun _ => Except.error (Err.external "no csv")
  ReadFile := fun _ => Except.ok []
  StatIsDir := fun _ => Except.ok false
  Compress := fun _ => Except.ok []
  Base := fun path => path
  MesheryFolder := "/home/user/.meshery"

/-- A reply with status 200 and an empty body. -/
def okReply : HttpResponse := ⟨200, "POST", Except.ok []⟩

/-- The invariant of the two maps of `displaySuccessfulRelationships`: the rows of every
grouping are pairwise different, and each row `[from, to]` of a grouping `key` has its
concatenation `key ++ from ++ to` in the seen-set. -/
def RelState.Inv (st : RelState) : Prop :=
  ∀ k rows, (k, rows) ∈ st.relationshipMap →
    rows.Nodup ∧ ∀ row ∈ rows, ∃ f t, row = [f, t] ∧ k ++ f ++ t ∈ st.seen


/-- The attribution rule as the specification words it: an entity belongs to the model
being rendered when its name equals the model name, or, for the empty model name, when
its type is `Unknown` or `unknown`. -/
def specAttributed (m : String) (p : String × String) : Bool :=
  if m ≠ "" then decide (p.1 = m) else decide (p.2 = "Unknown") || decide (p.2 = "unknown")

/-- The number of entities attributed to `m` (specification rule) whose type is `t`. -/
def specCount (m t : String) (pairs : List (String × String)) : Nat :=
  pairs.countP fun p => specAttributed m p && decide (p.2 = t)

/-- The component part of the count line, for `c` failed components. -/
def componentPart (c : Nat) : String :=
  " " ++ fmtD c ++ " " ++ (if c > 1 then "entities" else "entity") ++ " of type component"

/-- The relationship part of the count line, for `r` failed relationships. -/
def relationshipPart (r : Nat) : String :=
  " " ++ fmtD r ++ " " ++ (if r > 1 then "entities" else "entity") ++ " of type relationship"

/-- The count line as the specification words it, by cases on the two numbers. -/
def specLine (c r : Nat) : String :=
  if c = 0 ∧ r = 0 then ""
  else if r = 0 then componentPart c
  else if c = 0 then relationshipPart r
  else componentPart c ++ " and" ++ relationshipPart r


/-- The long description that `displayUnsuccessfulEntities` builds from an `error`
mapping. -/
def longDescriptionOf (env : Env) (errorDetails : GoMap) : String :=
  (buildDescription env (errorDetails.index "LongDescription") "LongDescription").val.getD ""

/-- The probable-cause list built from an `error` mapping. -/
def probableCauseOf (env : Env) (errorDetails : GoMap) : String :=
  (buildDescriptionList env (errorDetails.index "ProbableCause") "ProbableCause").val.getD ""

/-- The suggested-remediation list built from an `error` mapping. -/
def suggestedRemediationOf (env : Env) (errorDetails : GoMap) : String :=
  (buildDescriptionList env (errorDetails.index "SuggestedRemediation")
    "SuggestedRemediation").val.getD ""

/-- The log lines that the three description builders emit for an `error` mapping. -/
def descriptionLogs (env : Env) (errorDetails : GoMap) : List Event :=
  (buildDescription env (errorDetails.index "LongDescription") "LongDescription").out ++
    ((buildDescriptionList env (errorDetails.index "ProbableCause") "ProbableCause").out ++
      (buildDescriptionList env (errorDetails.index "SuggestedRemediation")
        "SuggestedRemediation").out)


/-- The standard environment with the entries of a map visited in the reverse of the
insertion order. -/
def Env.reversed : Env :=
  { Env.std with
    rangeOrder := List.reverse
    rangeOrder_perm := fun l => List.reverse_perm l }

/-- One relationship record whose kind contains a slash. -/
def sampleSlashKindRel : GoMap :=
  relRecord (Value.str "a/b") "c" "d" "Kubernetes" [selector "Service" "Pod"]

/-- A relationship record of another triple with the same joined key `a/b/c/d`. -/
def sampleSlashSubtypeRel : GoMap :=
  relRecord (Value.str "a") "b/c" "d" "Kubernetes" [selector "Pod" "Node"]

/-- One relationship record with the two different edges `ab → c` and `a → bc`. -/
def sampleTwoEdgesRel : GoMap :=
  relRecord (Value.str "Edge") "Network" "binding" "Kubernetes"
    [selector "ab" "c", selector "a" "bc"]

/-- A relationship record of the grouping (Edge, Network, binding) with the edge
`xy → z`. -/
def sampleBindingRel : GoMap :=
  relRecord (Value.str "Edge") "Network" "binding" "Kubernetes" [selector "xy" "z"]

/-- A relationship record of the grouping (Edge, Network, bindingx) with the edge
`y → z`. -/
def sampleBindingxRel : GoMap :=
  relRecord (Value.str "Edge") "Network" "bindingx" "Kubernetes" [selector "y" "z"]

/-- A relationship record of the grouping (Hierarchical, Inventory, parent). -/
def sampleParentRel : GoMap :=
  relRecord (Value.str "Hierarchical") "Inventory" "parent" "Kubernetes"
    [selector "Namespace" "Pod"]

/-- A reply for the model `Kubernetes` with relationships in two groupings. -/
def sampleTwoGroupings : RegistryAPIResponse :=
  { EntityCount := { CompCount := 0, RelCount := 2, ModelCount := 1, TotalErrCount := 0 },
    ErrMsg := "Imported 1 model",
    EntityTypeSummary := ⟨[], [sampleRel, sampleParentRel], ["Kubernetes"], []⟩,
    ModelName := ["Kubernetes"] }


/-! ## Decoding of the CSV fields -/

/-- The 6-bit value of a character of the base64 alphabet. -/
def b64Index (c : Char) : Option Nat :=
  if b64Alphabet.indexOf c < 64 then some (b64Alphabet.indexOf c) else none

/-- The byte of a number below 256. -/
def toByte (n : Nat) : Byte := ⟨n % 256, Nat.mod_lt _ (by decide)⟩

/-- Standard base64 decoding with padding (`base64.StdEncoding.DecodeString` on input
without line breaks): four characters give three bytes, and the last group may end in
one or two `=`. -/
def b64Decode : List Char → Option (List Byte)
  | [] => some []
  | c0 :: c1 :: c2 :: c3 :: rest =>
    if c3 = '=' then
      if rest ≠ [] then none
      else if c2 = '=' then
        (b64Index c0).bind fun v0 =>
        (b64Index c1).bind fun v1 =>
        some [toByte (v0 * 4 + v1 / 16)]
      else
        (b64Index c0).bind fun v0 =>
        (b64Index c1).bind fun v1 =>
        (b64Index c2).bind fun v2 =>
        some [toByte (v0 * 4 + v1 / 16), toByte (v1 % 16 * 16 + v2 / 4)]
    else
      (b64Index c0).bind fun v0 =>
      (b64Index c1).bind fun v1 =>
      (b64Index c2).bind fun v2 =>
      (b64Index c3).bind fun v3 =>
      (b64Decode rest).bind fun tail =>
      some (toByte (v0 * 4 + v1 / 16) :: toByte (v1 % 16 * 16 + v2 / 4) ::
        toByte (v2 % 4 * 64 + v3) :: tail)
  | _ => none

/-- Removal of a leading `p` from a character list; `none` when `p` does not lead. -/
def stripPrefixChars : List Char → List Char → Option (List Char)
  | [], s => some s
  | _ :: _, [] => none
  | p :: ps, c :: cs => if p = c then stripPrefixChars ps cs else none

/-- Decoding of a CSV field of the request: the data-URI prefix is stripped and the rest
is base64-decoded. -/
def decodeCsvField (field : String) : Option (List Byte) :=
  (stripPrefixChars "data:text/csv;base64,".data field.data).bind b64Decode


/-- A world whose paths are not URLs and whose directory listing is `files`. -/
def listingWorld (files : Except Err (List DirEntry)) : World :=
  { sampleWorld (Except.ok okReply) (Except.ok scenarioReply) false with
    ReadDir := fun _ => files }

/-- A listing with a text file, a directory named `old.csv` and the file `Models.CSV`. -/
def sampleListing : List DirEntry :=
  [⟨"notes.txt", false⟩, ⟨"old.csv", true⟩, ⟨"Models.CSV", false⟩]

/-- The path the command works on: the value of the `--file` flag when it is not empty,
else the first positional argument. -/
def selectedPath (file : String) (args : List String) : Option String :=
  if file ≠ "" then some file else args.head?


/-- Exactly one of the two inputs is supplied: a non-empty `--file` value, or a
positional argument. -/
def exactlyOneInput (file : String) (args : List String) : Bool :=
  (decide (file ≠ "") && args.isEmpty) || (decide (file = "") && !args.isEmpty)


/-- The value is a sequence. -/
def Value.isSeq : Value → Bool
  | Value.arr _ => true
  | _ => false

/-- An error entry that passes the four casts of `displayUnsuccessfulEntities`: a mapping
whose `name` and `entityType` are sequences and whose `error` is a non-empty mapping. -/
def passesCasts : Value → Bool
  | Value.obj m =>
    (GoMap.index m "name").isSeq && (GoMap.index m "entityType").isSeq &&
      (GoMap.index m "error").isNonEmptyMap
  | _ => false

/-- An error entry whose single name is a number. -/
def numberNameEntry : Value :=
  Value.obj [("name", Value.arr [Value.num "1"]),
    ("entityType", Value.arr [Value.str "component"]), ("error", errorDetail "schema mismatch")]

/-- An error entry whose single type is a number. -/
def numberTypeEntry : Value :=
  Value.obj [("name", Value.arr [Value.str "Kubernetes"]),
    ("entityType", Value.arr [Value.num "1"]), ("error", errorDetail "schema mismatch")]

/-- A reply for the models `Kubernetes` and `Istio` whose first error entry has a number
as name and whose second error entry is a well-formed entry of `Istio`. -/
def sampleNumberName : RegistryAPIResponse :=
  { EntityCount := { CompCount := 0, RelCount := 0, ModelCount := 2, TotalErrCount := 2 },
    ErrMsg := "Imported 2 models",
    EntityTypeSummary :=
      ⟨[], [], ["Kubernetes", "Istio"],
        [numberNameEntry, errorEntry ["Istio"] ["component"] (errorDetail "no schema")]⟩,
    ModelName := ["Kubernetes", "Istio"] }


/-- The distinct entries of a list, each at its first occurrence. -/
def firstOccurrences : List String → List String
  | [] => []
  | a :: l => a :: (firstOccurrences l).filter fun b => decide (b ≠ a)

/-- The entries of `l` that are not empty and not in `seen`, each at its first
occurrence. -/
def newNames : List String → List String → List String
  | _, [] => []
  | seen, m :: l =>
    if m ≠ "" ∧ m ∉ seen then m :: newNames (m :: seen) l else newNames seen l


/-- A decoded reply with no successful model and, for the model `Kubernetes`, one
relationship record whose `Kind` is a number. -/
def sampleNoModelBadKind : RegistryAPIResponse :=
  { EntityCount := { CompCount := 0, RelCount := 1, ModelCount := 1, TotalErrCount := 0 },
    ErrMsg := "Imported 0 models",
    EntityTypeSummary :=
      ⟨[], [relRecord (Value.num "1") "Network" "binding" "Kubernetes"
        [selector "Service" "Pod"]], [], []⟩,
    ModelName := ["Kubernetes"] }

/-- An error entry whose first name is a number and whose second entity is named
`Kubernetes` and of type `unknown`. -/
def numberBeforeUnknownEntry : Value :=
  Value.obj [("name", Value.arr [Value.num "1", Value.str "Kubernetes"]),
    ("entityType", Value.arr [Value.str "component", Value.str "unknown"]),
    ("error", errorDetail "model not found")]

/-- A reply for the model `Kubernetes` with one error entry. -/
def oneErrorReply (entry : Value) : RegistryAPIResponse :=
  { EntityCount := { CompCount := 0, RelCount := 0, ModelCount := 1, TotalErrCount := 1 },
    ErrMsg := "Imported 1 model",
    EntityTypeSummary := ⟨[], [], ["Kubernetes"], [entry]⟩,
    ModelName := ["Kubernetes"] }

/-! ## Runs: basic facts -/

namespace Run

theorem eq_iff {α : Type} (r s : Run α) : r = s ↔ r.out = s.out ∧ r.val = s.val := by
  cases r; cases s; simp

@[simp]
theorem ret_out {α : Type} (a : α) : (ret a).out = [] := rfl
@[simp]
theorem ret_val {α : Type} (a : α) : (ret a).val = some a := rfl
@[simp]
theorem panic_out {α : Type} : (panic : Run α).out = [] := rfl
@[simp]
theorem panic_val {α : Type} : (panic : Run α).val = none := rfl
@[simp]
theorem emit_out (e : Event) : (emit e).out = [e] := rfl
@[simp]
theorem emit_val (e : Event) : (emit e).val = some () := rfl

@[simp]
theorem ret_bind {α β : Type} (a : α) (f : α → Run β) : (ret a).bind f = f a := by
  simp [bind, ret]

@[simp]
theorem panic_bind {α β : Type} (f : α → Run β) : (panic : Run α).bind f = panic := by
  simp [bind, panic]

@[simp]
theorem bind_ret {α : Type} (r : Run α) : r.bind ret = r := by
  cases r with
  | mk out val => cases val <;> simp [bind, ret]

theorem bind_assoc {α β γ : Type} (r : Run α) (f : α → Run β) (g : β → Run γ) :
    (r.bind f).bind g = r.bind fun a => (f a).bind g := by
  cases r with
  | mk out val =>
    cases val with
    | none => simp [bind]
    | some a =>
      cases h : (f a).val <;> simp [bind, h]

@[simp]
theorem ret_andThen {α : Type} (k : Run α) : (ret ()).andThen k = k := by
  simp [andThen]

@[simp]
theorem andThen_ret (r : Run Unit) : r.andThen (ret ()) = r := by
  cases r with
  | mk out val => cases val <;> simp [andThen, bind, ret]

theorem andThen_assoc {α : Type} (r s : Run Unit) (k : Run α) :
    (r.andThen s).andThen k = r.andThen (s.andThen k) := by
  simp [andThen, bind_assoc]

theorem bind_val_of_some {α β : Type} (r : Run α) (f : α → Run β) (a : α)
    (h : r.val = some a) : (r.bind f).val = (f a).val := by
  simp [bind, h]

theorem bind_out_of_some {α β : Type} (r : Run α) (f : α → Run β) (a : α)
    (h : r.val = some a) : (r.bind f).out = r.out ++ (f a).out := by
  simp [bind, h]

theorem bind_of_none {α β : Type} (r : Run α) (f : α → Run β)
    (h : r.val = none) : r.bind f = ⟨r.out, none⟩ := by
  simp [bind, h]

theorem andThen_val_of_some {α : Type} (r : Run Unit) (k : Run α)
    (h : r.val = some ()) : (r.andThen k).val = k.val := by
  simp [andThen, bind, h]

theorem andThen_out_of_some {α : Type} (r : Run Unit) (k : Run α)
    (h : r.val = some ()) : (r.andThen k).out = r.out ++ k.out := by
  simp [andThen, bind, h]

theorem andThen_of_none {α : Type} (r : Run Unit) (k : Run α)
    (h : r.val = none) : r.andThen k = ⟨r.out, none⟩ := by
  simp [andThen, bind, h]

theorem emit_andThen_out {α : Type} (e : Event) (k : Run α) :
    ((emit e).andThen k).out = e :: k.out := by
  simp [andThen, bind, emit]

theorem emit_andThen_val {α : Type} (e : Event) (k : Run α) :
    ((emit e).andThen k).val = k.val := by
  simp [andThen, bind, emit]

theorem val_unit_cases (r : Run Unit) : r.val = none ∨ r.val = some () := by
  cases h : r.val with
  | none => exact Or.inl rfl
  | some u => exact Or.inr rfl

@[simp]
theorem forEach_nil {α : Type} (body : α → Run Unit) :
    forEach body [] = ret () := rfl

@[simp]
theorem forEach_cons {α : Type} (body : α → Run Unit) (a : α) (l : List α) :
    forEach body (a :: l) = (body a).andThen (forEach body l) := rfl

theorem forEach_append {α : Type} (body : α → Run Unit) (l₁ l₂ : List α) :
    forEach body (l₁ ++ l₂) = (forEach body l₁).andThen (forEach body l₂) := by
  induction l₁ with
  | nil => simp
  | cons a l ih => simp [ih, andThen_assoc]

theorem forEach_val_of_all {α : Type} (body : α → Run Unit) (l : List α)
    (h : ∀ a ∈ l, (body a).val = some ()) : (forEach body l).val = some () := by
  induction l with
  | nil => rfl
  | cons a l ih =>
    rw [forEach_cons, andThen_val_of_some _ _ (h a (List.mem_cons_self a l))]
    exact ih fun b hb => h b (List.mem_cons_of_mem a hb)

@[simp]
theorem ofOption_out {α : Type} (o : Option α) : (ofOption o).out = [] := by
  cases o <;> rfl

theorem mem_bind_out {α β : Type} (r : Run α) (f : α → Run β) (e : Event)
    (h : e ∈ (r.bind f).out) : e ∈ r.out ∨ ∃ a, r.val = some a ∧ e ∈ (f a).out := by
  cases hv : r.val with
  | none =>
    rw [bind_of_none _ _ hv] at h
    exact Or.inl h
  | some a =>
    rw [bind_out_of_some _ _ a hv, List.mem_append] at h
    rcases h with h | h
    · exact Or.inl h
    · exact Or.inr ⟨a, rfl, h⟩

theorem mem_andThen_out {α : Type} (r : Run Unit) (k : Run α) (e : Event)
    (h : e ∈ (r.andThen k).out) : e ∈ r.out ∨ e ∈ k.out := by
  rcases mem_bind_out r (fun _ => k) e h with h | ⟨_, _, h⟩
  · exact Or.inl h
  · exact Or.inr h

theorem mem_forEach_out {α : Type} (body : α → Run Unit) (l : List α) (e : Event)
    (h : e ∈ (forEach body l).out) : ∃ a ∈ l, e ∈ (body a).out := by
  induction l with
  | nil => simp at h
  | cons a rest ih =>
    rw [forEach_cons] at h
    rcases mem_andThen_out _ _ e h with h | h
    · exact ⟨a, List.mem_cons_self _ _, h⟩
    · obtain ⟨b, hb, hbe⟩ := ih h
      exact ⟨b, List.mem_cons_of_mem _ hb, hbe⟩

end Run

/-! ## Unsuccessful entities -/

theorem descriptionLoop_completes (env : Env) (descriptionType : String)
    (piece : String → String) (l : List Value) (acc : String) :
    ∃ d, (descriptionLoop env descriptionType piece l acc).val = some d := by
  induction l generalizing acc with
  | nil => exact ⟨acc, rfl⟩
  | cons item rest ih =>
    cases item with
    | str s => simpa [descriptionLoop] using ih (acc ++ piece s)
    | null => simpa [descriptionLoop, Run.emit_andThen_val] using ih acc
    | bool b => simpa [descriptionLoop, Run.emit_andThen_val] using ih acc
    | num t => simpa [descriptionLoop, Run.emit_andThen_val] using ih acc
    | arr xs => simpa [descriptionLoop, Run.emit_andThen_val] using ih acc
    | obj m => simpa [descriptionLoop, Run.emit_andThen_val] using ih acc

theorem buildDescription_completes (env : Env) (v : Value) (descriptionType : String) :
    ∃ d, (buildDescription env v descriptionType).val = some d := by
  cases v with
  | arr xs =>
    obtain ⟨d, hd⟩ := descriptionLoop_completes env descriptionType (fun str => str ++ " ") xs ""
    exact ⟨TrimSpace d, by simp [buildDescription, Run.bind_val_of_some _ _ d hd]⟩
  | null => exact ⟨"", by simp [buildDescription, Run.emit_andThen_val]⟩
  | bool b => exact ⟨"", by simp [buildDescription, Run.emit_andThen_val]⟩
  | num t => exact ⟨"", by simp [buildDescription, Run.emit_andThen_val]⟩
  | str t => exact ⟨"", by simp [buildDescription, Run.emit_andThen_val]⟩
  | obj m => exact ⟨"", by simp [buildDescription, Run.emit_andThen_val]⟩

theorem buildDescriptionList_completes (env : Env) (v : Value) (descriptionType : String) :
    ∃ d, (buildDescriptionList env v descriptionType).val = some d := by
  cases v with
  | arr xs =>
    obtain ⟨d, hd⟩ := descriptionLoop_completes env descriptionType
      (fun str => "  - " ++ str ++ "\n") xs ""
    exact ⟨TrimSpace d, by simp [buildDescriptionList, Run.bind_val_of_some _ _ d hd]⟩
  | null => exact ⟨"", by simp [buildDescriptionList, Run.emit_andThen_val]⟩
  | bool b => exact ⟨"", by simp [buildDescriptionList, Run.emit_andThen_val]⟩
  | num t => exact ⟨"", by simp [buildDescriptionList, Run.emit_andThen_val]⟩
  | str t => exact ⟨"", by simp [buildDescriptionList, Run.emit_andThen_val]⟩
  | obj m => exact ⟨"", by simp [buildDescriptionList, Run.emit_andThen_val]⟩

theorem isString_iff (v : Value) : v.isString = true ↔ ∃ s, v = Value.str s := by
  cases v <;> simp [Value.isString]

theorem classifyEntity_completes (env : Env)
    (longDescription probableCause suggestedRemediation nameStr entityType : String)
    (c : Counts) :
    ∃ c', (classifyEntity env longDescription probableCause suggestedRemediation
      (Value.str nameStr) entityType c).val = some c' := by
  unfold classifyEntity
  by_cases h1 : entityType = "unknown"
  · refine ⟨c, ?_⟩
    simp only [h1, if_true, Value.assertString, Run.ofOption, Run.ret_bind,
      Run.emit_andThen_val]
    by_cases hp : probableCause ≠ "" <;> by_cases hs : suggestedRemediation ≠ "" <;>
      simp [hp, hs, Run.emit_andThen_val]
  · simp only [h1, if_false]
    split_ifs <;> exact ⟨_, rfl⟩

theorem entityType_lookup (entityTypes : List Value)
    (h : ∀ t ∈ entityTypes, t.isString = true) (i : Nat) :
    ∃ s, (if i < entityTypes.length then
        Run.ofOption ((entityTypes.get? i).bind Value.assertString)
      else Run.ret "") = Run.ret s := by
  by_cases hi : i < entityTypes.length
  · have hmem : entityTypes[i] ∈ entityTypes := List.getElem_mem hi
    obtain ⟨s, hs⟩ := (isString_iff _).1 (h _ hmem)
    refine ⟨s, ?_⟩
    simp [hi, List.getElem?_eq_getElem hi, hs, Value.assertString, Run.ofOption]
  · exact ⟨"", by simp [hi]⟩

theorem entityStep_completes (env : Env) (entityTypes : List Value)
    (longDescription probableCause suggestedRemediation modelName nameStr : String)
    (i : Nat) (c : Counts) (h : ∀ t ∈ entityTypes, t.isString = true) :
    ∃ c', (entityStep env entityTypes longDescription probableCause suggestedRemediation
      modelName i (Value.str nameStr) c).val = some c' := by
  unfold entityStep
  obtain ⟨s, hs⟩ := entityType_lookup entityTypes h i
  rw [hs, Run.ret_bind]
  simp only [Value.assertString, Run.ofOption, Run.ret_bind]
  split_ifs
  · exact ⟨_, rfl⟩
  · exact classifyEntity_completes ..
  · exact ⟨_, rfl⟩
  · exact classifyEntity_completes ..

theorem entityLoop_completes (env : Env) (entityTypes : List Value)
    (longDescription probableCause suggestedRemediation modelName : String)
    (h : ∀ t ∈ entityTypes, t.isString = true) (names : List Value)
    (hn : ∀ n ∈ names, n.isString = true) (i : Nat) (c : Counts) :
    ∃ c', (entityLoop env entityTypes longDescription probableCause suggestedRemediation
      modelName i names c).val = some c' := by
  induction names generalizing i c with
  | nil => exact ⟨c, rfl⟩
  | cons name rest ih =>
    obtain ⟨nameStr, rfl⟩ := (isString_iff name).1 (hn name (List.mem_cons_self _ _))
    obtain ⟨c1, h1⟩ := entityStep_completes env entityTypes longDescription probableCause
      suggestedRemediation modelName nameStr i c h
    obtain ⟨c2, h2⟩ := ih (fun n hm => hn n (List.mem_cons_of_mem _ hm)) (i + 1) c1
    exact ⟨c2, by rw [entityLoop, Run.bind_val_of_some _ _ c1 h1, h2]⟩

theorem reportEntity_completes (env : Env) (names entityTypes : List Value)
    (errorDetails : GoMap) (modelName : String)
    (hn : ∀ n ∈ names, n.isString = true) (ht : ∀ t ∈ entityTypes, t.isString = true) :
    (reportEntity env names entityTypes errorDetails modelName).val = some () := by
  unfold reportEntity
  obtain ⟨d1, h1⟩ := buildDescription_completes env
    (errorDetails.index "LongDescription") "LongDescription"
  obtain ⟨d2, h2⟩ := buildDescriptionList_completes env
    (errorDetails.index "ProbableCause") "ProbableCause"
  obtain ⟨d3, h3⟩ := buildDescriptionList_completes env
    (errorDetails.index "SuggestedRemediation") "SuggestedRemediation"
  obtain ⟨c, h4⟩ := entityLoop_completes env entityTypes d1 d2 d3 modelName ht names hn 0 ⟨0, 0⟩
  rw [Run.bind_val_of_some _ _ d1 h1, Run.bind_val_of_some _ _ d2 h2,
    Run.bind_val_of_some _ _ d3 h3]
  have h5 : (buildEntityTypeLine env names entityTypes d1 d2 d3 modelName).val
      = some (countLine c) := by
    rw [buildEntityTypeLine, Run.bind_val_of_some _ _ c h4]; rfl
  rw [Run.bind_val_of_some _ _ _ h5]
  split_ifs <;> simp [Run.emit_andThen_val]

theorem displayEntity_wellFormed (env : Env) (modelName : String) (entity : Value)
    (h : wellFormedEntry entity = true) :
    (displayEntity env modelName entity).val = some () := by
  cases entity with
  | obj m =>
    simp only [wellFormedEntry, Bool.and_eq_true] at h
    obtain ⟨⟨hn, ht⟩, he⟩ := h
    unfold displayEntity
    simp only [castMap]
    cases hname : GoMap.index m "name" with
    | arr names =>
      cases htype : GoMap.index m "entityType" with
      | arr entityTypes =>
        cases herr : GoMap.index m "error" with
        | obj d =>
          cases d with
          | nil => simp [herr, Value.isNonEmptyMap] at he
          | cons kv d' =>
            simp only [castSlice, castMap, List.length_cons, Nat.succ_ne_zero, if_false]
            apply reportEntity_completes
            · simpa [hname, Value.isStringSeq] using hn
            · simpa [htype, Value.isStringSeq] using ht
        | null => simp [herr, Value.isNonEmptyMap] at he
        | bool b => simp [herr, Value.isNonEmptyMap] at he
        | num t => simp [herr, Value.isNonEmptyMap] at he
        | str t => simp [herr, Value.isNonEmptyMap] at he
        | arr t => simp [herr, Value.isNonEmptyMap] at he
      | null => simp [htype, Value.isStringSeq] at ht
      | bool b => simp [htype, Value.isStringSeq] at ht
      | num t => simp [htype, Value.isStringSeq] at ht
      | str t => simp [htype, Value.isStringSeq] at ht
      | obj t => simp [htype, Value.isStringSeq] at ht
    | null => simp [hname, Value.isStringSeq] at hn
    | bool b => simp [hname, Value.isStringSeq] at hn
    | num t => simp [hname, Value.isStringSeq] at hn
    | str t => simp [hname, Value.isStringSeq] at hn
    | obj t => simp [hname, Value.isStringSeq] at hn
  | null => simp [wellFormedEntry] at h
  | bool b => simp [wellFormedEntry] at h
  | num t => simp [wellFormedEntry] at h
  | str t => simp [wellFormedEntry] at h
  | arr t => simp [wellFormedEntry] at h

theorem displayEntity_malformed (env : Env) (modelName : String) (entity : Value)
    (h : malformedErrorField entity = true) :
    ∃ e, displayEntity env modelName entity = Run.emit (Event.logError e) := by
  cases entity with
  | obj m =>
    simp only [malformedErrorField, Bool.not_eq_true'] at h
    unfold displayEntity
    simp only [castMap]
    cases hname : castSlice (GoMap.index m "name") with
    | error e => exact ⟨some e, rfl⟩
    | ok names =>
      cases htype : castSlice (GoMap.index m "entityType") with
      | error e => exact ⟨some e, rfl⟩
      | ok entityTypes =>
        cases herr : GoMap.index m "error" with
        | obj d =>
          cases d with
          | nil => exact ⟨none, by simp [castMap]⟩
          | cons kv d' => simp [herr, Value.isNonEmptyMap] at h
        | null => exact ⟨some Err.typeCast, by simp [castMap]⟩
        | bool b => exact ⟨some Err.typeCast, by simp [castMap]⟩
        | num t => exact ⟨some Err.typeCast, by simp [castMap]⟩
        | str t => exact ⟨some Err.typeCast, by simp [castMap]⟩
        | arr t => exact ⟨some Err.typeCast, by simp [castMap]⟩
  | null => simp [malformedErrorField] at h
  | bool b => simp [malformedErrorField] at h
  | num t => simp [malformedErrorField] at h
  | str t => simp [malformedErrorField] at h
  | arr t => simp [malformedErrorField] at h

theorem displayUnsuccessfulEntities_eq (env : Env) (response : RegistryAPIResponse)
    (modelName : String) :
    displayUnsuccessfulEntities env response modelName =
      Run.forEach (displayEntity env modelName)
        response.EntityTypeSummary.UnsuccessfulEntityNameWithError := by
  unfold displayUnsuccessfulEntities
  cases h : response.EntityTypeSummary.UnsuccessfulEntityNameWithError with
  | nil => simp
  | cons a l => simp

/-- C1: when one entry of `unsuccessfulEntityNameWithError` has an `error` field that is
not a mapping or is an empty mapping, `displayUnsuccessfulEntities` skips that entry only.
The run is the run on the entries before it, one call to the error log, then the run on
the entries after it; it ends exactly as the run on the list without the entry ends, and
apart from that one error-log call it emits exactly what it emits for the list without
the entry; it completes whenever all other entries are well-formed. -/
theorem displayUnsuccessfulEntities_skips_malformed (env : Env)
    (response : RegistryAPIResponse) (modelName : String) (pre post : List Value)
    (bad : Value)
    (hlist : response.EntityTypeSummary.UnsuccessfulEntityNameWithError = pre ++ bad :: post)
    (hbad : malformedErrorField bad = true) :
    (∃ e, displayUnsuccessfulEntities env response modelName =
      (displayUnsuccessfulEntities env (withUnsuccessful response pre) modelName).andThen
        ((Run.emit (Event.logError e)).andThen
          (displayUnsuccessfulEntities env (withUnsuccessful response post) modelName))) ∧
    displayUnsuccessfulEntities env (withUnsuccessful response (pre ++ post)) modelName =
      (displayUnsuccessfulEntities env (withUnsuccessful response pre) modelName).andThen
        (displayUnsuccessfulEntities env (withUnsuccessful response post) modelName) ∧
    (displayUnsuccessfulEntities env response modelName).val =
      (displayUnsuccessfulEntities env (withUnsuccessful response (pre ++ post)) modelName).val ∧
    (displayUnsuccessfulEntities env response modelName).out.filter Event.isNarrative =
      (displayUnsuccessfulEntities env (withUnsuccessful response (pre ++ post))
        modelName).out.filter Event.isNarrative ∧
    ((∀ x ∈ pre ++ post, wellFormedEntry x = true) →
      (displayUnsuccessfulEntities env response modelName).val = some ()) := by
  obtain ⟨e, he⟩ := displayEntity_malformed env modelName bad hbad
  refine ⟨⟨e, ?_⟩, ?_, ?_, ?_, ?_⟩ <;>
    simp only [displayUnsuccessfulEntities_eq, withUnsuccessful, hlist, Run.forEach_append,
      Run.forEach_cons, he]
  · rcases Run.val_unit_cases (Run.forEach (displayEntity env modelName) pre) with h | h
    · simp [Run.andThen_of_none _ _ h]
    · simp [Run.andThen_val_of_some _ _ h, Run.emit_andThen_val]
  · rcases Run.val_unit_cases (Run.forEach (displayEntity env modelName) pre) with h | h
    · simp [Run.andThen_of_none _ _ h]
    · simp [Run.andThen_out_of_some _ _ h, Run.emit_andThen_out, Event.isNarrative]
  · intro hall
    have hpre : (Run.forEach (displayEntity env modelName) pre).val = some () :=
      Run.forEach_val_of_all _ _ fun a ha =>
        displayEntity_wellFormed env modelName a (hall a (List.mem_append_left _ ha))
    have hpost : (Run.forEach (displayEntity env modelName) post).val = some () :=
      Run.forEach_val_of_all _ _ fun a ha =>
        displayEntity_wellFormed env modelName a (hall a (List.mem_append_right _ ha))
    rw [Run.andThen_val_of_some _ _ hpre, Run.emit_andThen_val, hpost]

/-- Witness of C1: between two well-formed entries, an entry whose `error` is a string is
skipped; the run completes and reports the two other entries. -/
theorem displayUnsuccessfulEntities_skips_malformed_witness :
    malformedErrorField (errorEntry ["Kubernetes"] ["component"] (Value.str "oops")) = true ∧
    (displayUnsuccessfulEntities Env.std sampleMalformedError "Kubernetes").val = some () ∧
    (displayUnsuccessfulEntities Env.std sampleMalformedError "Kubernetes").out.filter
        Event.isNarrative =
      [Event.println "",
       Event.logInfo ("  \x1b[1mERROR\x1b[0m: Import did not occur for 1 entity of type " ++
         "component error: \n  schema mismatch"),
       Event.println "",
       Event.logInfo ("  \x1b[1mERROR\x1b[0m: Import did not occur for 2 entities of type " ++
         "relationship error: \n  no selector")] :=
  have h := displayUnsuccessfulEntities_skips_malformed Env.std sampleMalformedError
    "Kubernetes" [errorEntry ["Kubernetes"] ["component"] (errorDetail "schema mismatch")]
    [errorEntry ["Kubernetes", "Kubernetes"] ["relationship", "relationship"]
      (errorDetail "no selector")]
    (errorEntry ["Kubernetes"] ["component"] (Value.str "oops")) rfl (by decide)
  ⟨by decide, h.2.2.2.2 (by decide), h.2.2.2.1.trans (by decide)⟩

/-! ## Successful relationships -/

theorem relLoop_panics (env : Env) (model : String) (rels : List GoMap) (rel : GoMap)
    (hmem : rel ∈ rels) (hstep : ∀ st, relStep env model st rel = none) (st : RelState) :
    relLoop env model rels st = none := by
  induction rels generalizing st with
  | nil => simp at hmem
  | cons r rest ih =>
    unfold relLoop
    rcases List.mem_cons.1 hmem with h | h
    · subst h
      simp [hstep st]
    · cases hr : relStep env model st r with
      | none => rfl
      | some st' => simpa using ih h st'

theorem displaySuccessfulRelationships_panics_of_bad_kind (env : Env)
    (response : RegistryAPIResponse) (model : String) (rel : GoMap)
    (hmem : rel ∈ response.EntityTypeSummary.SuccessfulRelationships)
    (hkind : (rel.index "Kind").assertString = none) :
    displaySuccessfulRelationships env response model = Run.panic := by
  have hpos : response.EntityTypeSummary.SuccessfulRelationships.length > 0 :=
    List.length_pos_of_mem hmem
  have hloop := relLoop_panics env model _ rel hmem
    (fun st => by simp [relStep, hkind]) ⟨[], []⟩
  simp [displaySuccessfulRelationships, hpos, hloop]

/-- C2: `displaySuccessfulRelationships` aborts on a record whose `Kind` is not a string.
With the record of another model whose `Kind` is a number placed before a well-formed
record of `Kubernetes`, the run for `Kubernetes` panics without any output, in every
environment; without that record the well-formed one is rendered. -/
theorem displaySuccessfulRelationships_aborts :
    (∀ env : Env,
      displaySuccessfulRelationships env
        (withRelationships emptyResponse [sampleBadKindRel, sampleRel]) "Kubernetes"
        = Run.panic) ∧
    (displaySuccessfulRelationships Env.std
        (withRelationships emptyResponse [sampleRel]) "Kubernetes").val = some () ∧
    (displaySuccessfulRelationships Env.std
        (withRelationships emptyResponse [sampleRel]) "Kubernetes").out =
      [Event.println "",
       Event.logInfo ("  \x1b[1mRELATIONSHIP:\x1b[0m Kind of Edge, sub type Network " ++
         "and type binding"),
       Event.table ["From", "To"] [["Service", "Pod"]]] :=
  ⟨fun _ => rfl, by decide, by decide⟩

theorem mem_mapAppend (m : List (String × Rows)) (key : String) (row : List String)
    (k : String) (rows : Rows) (h : (k, rows) ∈ mapAppend m key row) :
    (k, rows) ∈ m ∨ (k = key ∧ (rows = [row] ∨ ∃ old, (key, old) ∈ m ∧ rows = old ++ [row])) := by
  induction m with
  | nil =>
    simp only [mapAppend, List.mem_singleton, Prod.mk.injEq] at h
    exact Or.inr ⟨h.1, Or.inl h.2⟩
  | cons e rest ih =>
    obtain ⟨k0, rows0⟩ := e
    unfold mapAppend at h
    by_cases hk : k0 = key
    · simp only [hk, if_true, List.mem_cons, Prod.mk.injEq] at h
      rcases h with ⟨h1, h2⟩ | h
      · exact Or.inr ⟨h1, Or.inr ⟨rows0, by simp [hk], h2⟩⟩
      · exact Or.inl (List.mem_cons_of_mem _ h)
    · simp only [hk, if_false, List.mem_cons, Prod.mk.injEq] at h
      rcases h with ⟨h1, h2⟩ | h
      · exact Or.inl (by simp [h1, h2])
      · rcases ih h with h | ⟨h1, h2 | ⟨old, h3, h4⟩⟩
        · exact Or.inl (List.mem_cons_of_mem _ h)
        · exact Or.inr ⟨h1, Or.inl h2⟩
        · exact Or.inr ⟨h1, Or.inr ⟨old, List.mem_cons_of_mem _ h3, h4⟩⟩

theorem selectorStep_inv (env : Env) (kind subtype relationshipType : String)
    (st st' : RelState) (selector : Value) (hinv : st.Inv)
    (h : selectorStep env kind subtype relationshipType st selector = some st') : st'.Inv := by
  unfold selectorStep at h
  simp only [Option.bind_eq_some] at h
  obtain ⟨selectorMap, -, allow, -, fromS, -, toS, -, from0, -, fromMap, -, to0, -, toMap, -,
    h⟩ := h
  by_cases hseen : kind ++ "/" ++ subtype ++ "/" ++ relationshipType ++
      sprintS env (GoMap.index fromMap "kind") ++ sprintS env (GoMap.index toMap "kind") ∈ st.seen
  · simp only [hseen, if_true, Option.some.injEq] at h
    exact h ▸ hinv
  · simp only [hseen, if_false, Option.some.injEq] at h
    subst h
    intro k rows hmem
    rcases mem_mapAppend _ _ _ _ _ hmem with h | ⟨hk, h | ⟨old, hold, h⟩⟩
    · obtain ⟨hnd, hrows⟩ := hinv k rows h
      refine ⟨hnd, fun row hrow => ?_⟩
      obtain ⟨f, t, h1, h2⟩ := hrows row hrow
      exact ⟨f, t, h1, List.mem_cons_of_mem _ h2⟩
    · subst hk h
      refine ⟨by simp, fun row hrow => ?_⟩
      simp only [List.mem_singleton] at hrow
      exact ⟨_, _, hrow, List.mem_cons_self _ _⟩
    · subst hk h
      obtain ⟨hnd, hrows⟩ := hinv _ old hold
      refine ⟨?_, fun row hrow => ?_⟩
      · rw [List.nodup_append]
        refine ⟨hnd, by simp, ?_⟩
        intro a ha hb
        simp only [List.mem_singleton] at hb
        subst hb
        obtain ⟨f, t, h1, h2⟩ := hrows _ ha
        simp only [List.cons.injEq, and_true] at h1
        obtain ⟨hf, ht⟩ := h1
        rw [← hf, ← ht] at h2
        exact hseen h2
      · rcases List.mem_append.1 hrow with hrow | hrow
        · obtain ⟨f, t, h1, h2⟩ := hrows row hrow
          exact ⟨f, t, h1, List.mem_cons_of_mem _ h2⟩
        · simp only [List.mem_singleton] at hrow
          exact ⟨_, _, hrow, List.mem_cons_self _ _⟩

theorem selectorLoop_inv (env : Env) (kind subtype relationshipType : String)
    (selectors : List Value) (st st' : RelState) (hinv : st.Inv)
    (h : selectorLoop env kind subtype relationshipType selectors st = some st') : st'.Inv := by
  induction selectors generalizing st with
  | nil =>
    simp only [selectorLoop, Option.some.injEq] at h
    exact h ▸ hinv
  | cons selector rest ih =>
    simp only [selectorLoop, Option.bind_eq_some] at h
    obtain ⟨st1, h1, h2⟩ := h
    exact ih st1 (selectorStep_inv _ _ _ _ _ _ _ hinv h1) h2

theorem relStep_inv (env : Env) (model : String) (st st' : RelState) (rel : GoMap)
    (hinv : st.Inv) (h : relStep env model st rel = some st') : st'.Inv := by
  unfold relStep at h
  simp only [Option.bind_eq_some] at h
  obtain ⟨kind, -, subtype, -, relationshipType, -, modelName, -, h⟩ := h
  by_cases hm : modelName = model
  · simp only [hm, ne_eq, not_true_eq_false, if_false, Option.bind_eq_some] at h
    obtain ⟨selectors, -, h⟩ := h
    exact selectorLoop_inv _ _ _ _ _ _ _ hinv h
  · simp only [hm, ne_eq, not_false_eq_true, if_true, Option.some.injEq] at h
    exact h ▸ hinv

theorem relLoop_inv (env : Env) (model : String) (rels : List GoMap) (st st' : RelState)
    (hinv : st.Inv) (h : relLoop env model rels st = some st') : st'.Inv := by
  induction rels generalizing st with
  | nil =>
    simp only [relLoop, Option.some.injEq] at h
    exact h ▸ hinv
  | cons rel rest ih =>
    simp only [relLoop, Option.bind_eq_some] at h
    obtain ⟨st1, h1, h2⟩ := h
    exact ih st1 (relStep_inv _ _ _ _ _ hinv h1) h2

theorem renderGroup_table (env : Env) (entry : String × Rows) (header : List String)
    (rows : Rows) (h : Event.table header rows ∈ (renderGroup env entry).out) :
    rows = entry.2 := by
  unfold renderGroup at h
  by_cases hlen : entry.2.length > 0
  · simp only [hlen, if_true] at h
    rcases Run.mem_andThen_out _ _ _ h with h | h
    · simp at h
    · rcases Run.mem_bind_out _ _ _ h with h | ⟨p0, -, h⟩
      · simp at h
      · rcases Run.mem_bind_out _ _ _ h with h | ⟨p1, -, h⟩
        · simp at h
        · rcases Run.mem_bind_out _ _ _ h with h | ⟨p2, -, h⟩
          · simp at h
          · rcases Run.mem_andThen_out _ _ _ h with h | h
            · simp at h
            · simp only [Run.emit_out, List.mem_singleton, Event.table.injEq] at h
              exact h.2
  · simp [hlen] at h

theorem displaySuccessfulRelationships_rows_nodup (env : Env)
    (response : RegistryAPIResponse) (model : String) (header : List String) (rows : Rows)
    (h : Event.table header rows ∈ (displaySuccessfulRelationships env response model).out) :
    rows.Nodup := by
  unfold displaySuccessfulRelationships at h
  by_cases hlen : response.EntityTypeSummary.SuccessfulRelationships.length > 0
  · simp only [hlen, if_true] at h
    cases hloop : relLoop env model response.EntityTypeSummary.SuccessfulRelationships
        ⟨[], []⟩ with
    | none => simp [hloop] at h
    | some st =>
      simp only [hloop] at h
      obtain ⟨entry, hentry, he⟩ := Run.mem_forEach_out _ _ _ h
      have hrows := renderGroup_table env entry header rows he
      have hmem : entry ∈ st.relationshipMap := (env.rangeOrder_perm _).mem_iff.1 hentry
      have hinv : st.Inv := relLoop_inv env model _ ⟨[], []⟩ st
        (fun k rows hkr => by simp at hkr) hloop
      exact hrows ▸ (hinv entry.1 entry.2 hmem).1
  · simp [hlen] at h

/-- C3: two selector entries with identical (kind, subtype, relationshipType, from, to)
do not always give exactly one row.  In one record with the selectors `ab → c`, `a → bc`,
`a → bc`, the seen-key of `a → bc` equals that of `ab → c`, so the only table printed
has the single row `[ab, c]` and no row `[a, bc]` at all. -/
theorem displaySuccessfulRelationships_drops_colliding_edge :
    (displaySuccessfulRelationships Env.std
        (withRelationships emptyResponse [sampleCollidingRel]) "Kubernetes").val = some () ∧
    (displaySuccessfulRelationships Env.std
        (withRelationships emptyResponse [sampleCollidingRel]) "Kubernetes").out =
      [Event.println "",
       Event.logInfo ("  \x1b[1mRELATIONSHIP:\x1b[0m Kind of Edge, sub type Network " ++
         "and type binding"),
       Event.table ["From", "To"] [["ab", "c"]]] :=
  ⟨by decide, by decide⟩

/-! ## Model bucketing -/

theorem extScan_no_dot (isSep : Char → Bool) (rev acc : List Char)
    (h : '.' ∉ rev) : extScan isSep rev acc = [] := by
  induction rev generalizing acc with
  | nil => rfl
  | cons c rest ih =>
    have hc : c ≠ '.' := fun hc => h (by simp [hc])
    have hrest : '.' ∉ rest := fun hm => h (List.mem_cons_of_mem _ hm)
    unfold extScan
    by_cases hs : isSep c = true
    · simp [hs]
    · simp [hs, hc, ih _ hrest]

theorem hasExtension_Kubernetes (env : Env) : hasExtension env "Kubernetes" = false := by
  have hE : Ext env "Kubernetes" = "" := by
    show String.mk (extScan env.isPathSeparator "Kubernetes".data.reverse []) = ""
    rw [extScan_no_dot _ _ _ (by decide)]
  simp only [hasExtension, hE]
  decide

theorem componentRows_eq (modelName : String) (l : List GoMap) (rows : Rows) :
    componentRows modelName l rows =
      rows ++ (l.filter fun comp => decide ((comp.index "Model").stringOrZero = modelName)).map
        fun comp => [(comp.index "DisplayName").stringOrZero,
          (comp.index "Version").stringOrZero] := by
  induction l generalizing rows with
  | nil => simp [componentRows]
  | cons comp rest ih =>
    unfold componentRows
    by_cases h : (comp.index "Model").stringOrZero = modelName
    · simp [h, ih]
    · simp [h, ih]

/-- C6: the table printed by `displaySuccessfulComponents` for model `m` has the header
(Component, Version) and its rows are the (DisplayName, Version) pairs of the
`successfulComponents` records whose Model field equals `m`, in response order, a missing
or non-string field reading as the empty string; when no record matches nothing is
printed. -/
theorem displaySuccessfulComponents_table (response : RegistryAPIResponse) (m : String) :
    displaySuccessfulComponents response m =
      if (response.EntityTypeSummary.SuccessfulComponents.filter
          fun comp => decide ((comp.index "Model").stringOrZero = m)).isEmpty then
        Run.ret ()
      else
        ⟨[Event.println "",
          Event.table ["Component", "Version"]
            ((response.EntityTypeSummary.SuccessfulComponents.filter
                fun comp => decide ((comp.index "Model").stringOrZero = m)).map
              fun comp => [(comp.index "DisplayName").stringOrZero,
                (comp.index "Version").stringOrZero])], some ()⟩ := by
  unfold displaySuccessfulComponents
  simp only [componentRows_eq, List.nil_append, List.length_map]
  cases hl : response.EntityTypeSummary.SuccessfulComponents with
  | nil => simp
  | cons c l =>
    cases hf : (c :: l).filter
        (fun comp => decide ((comp.index "Model").stringOrZero = m)) with
    | nil => simp
    | cons a t => simp [Run.andThen, Run.bind, Run.emit]

/-! ## The report as a whole -/

/-- C9: when `modelNames` is non-empty and the component, relationship and total error
counts are all zero, `displayEntities` renders the summary and nothing else; for every
other reply it goes on to the per-model rendering. -/
theorem displayEntities_empty_import (env : Env) (response : RegistryAPIResponse) :
    displayEntities env response =
      if response.ModelName ≠ [] ∧ response.EntityCount.CompCount = 0 ∧
          response.EntityCount.RelCount = 0 ∧ response.EntityCount.TotalErrCount = 0 then
        displaySummary env response
      else (displaySummary env response).andThen (displayEntitisIfModel env response) := by
  unfold displayEntities displayEmtpyModel
  by_cases h1 : response.ModelName = []
  · simp [h1]
  · have h1' : response.ModelName.length ≠ 0 := by
      simpa [List.length_eq_zero] using h1
    by_cases h2 : response.EntityCount.CompCount = 0 <;>
      by_cases h3 : response.EntityCount.RelCount = 0 <;>
      by_cases h4 : response.EntityCount.TotalErrCount = 0 <;>
      simp [h1, h2, h3, h4]

/-- C5: the scenario as stated does not fix `modelNames` nor the other counts, and the
report depends on both.  With `modelNames = ["Kubernetes"]` and zero component,
relationship and error counts only the summary is printed; with no entry in `modelNames`
only the summary is printed as well. -/
theorem displayEntities_scenario_counterexample :
    (scenarioZeroCounts.EntityCount.ModelCount = 1 ∧
      scenarioZeroCounts.EntityTypeSummary.SuccessfulModels = ["Kubernetes"] ∧
      scenarioZeroCounts.EntityTypeSummary.SuccessfulComponents = [podComponent] ∧
      scenarioZeroCounts.EntityTypeSummary.SuccessfulRelationships = [] ∧
      scenarioZeroCounts.EntityTypeSummary.UnsuccessfulEntityNameWithError = [] ∧
      (displayEntities Env.std scenarioZeroCounts).out =
        [Event.logInfo "\x1b[1mSUMMARY\x1b[0m: Imported 1 model"]) ∧
    (scenarioNoModelName.EntityCount.ModelCount = 1 ∧
      scenarioNoModelName.EntityTypeSummary.SuccessfulModels = ["Kubernetes"] ∧
      scenarioNoModelName.EntityTypeSummary.SuccessfulComponents = [podComponent] ∧
      scenarioNoModelName.EntityTypeSummary.SuccessfulRelationships = [] ∧
      scenarioNoModelName.EntityTypeSummary.UnsuccessfulEntityNameWithError = [] ∧
      (displayEntities Env.std scenarioNoModelName).out =
        [Event.logInfo "\x1b[1mSUMMARY\x1b[0m: Imported 1 model"]) :=
  ⟨⟨rfl, rfl, rfl, rfl, rfl, by decide⟩, ⟨rfl, rfl, rfl, rfl, rfl, by decide⟩⟩

/-- C5 (amended): for every reply with `modelNames = ["Kubernetes"]`, a model count of one,
component, relationship and error counts that are not all zero, the single successful
component (Pod, Kubernetes, v1), no successful relationship and no unsuccessful entity,
`displayEntities` prints the summary line, the `MODEL: Kubernetes` header and then the
components table with the single row (Pod, v1), and completes. -/
theorem displayEntities_scenario (env : Env) (response : RegistryAPIResponse) (comp : GoMap)
    (hnames : response.ModelName = ["Kubernetes"])
    (hcount : response.EntityCount.ModelCount = 1)
    (hnonzero : ¬ (response.EntityCount.CompCount = 0 ∧ response.EntityCount.RelCount = 0 ∧
      response.EntityCount.TotalErrCount = 0))
    (_hmodels : response.EntityTypeSummary.SuccessfulModels = ["Kubernetes"])
    (hcomps : response.EntityTypeSummary.SuccessfulComponents = [comp])
    (hname : comp.index "DisplayName" = Value.str "Pod")
    (hmodel : comp.index "Model" = Value.str "Kubernetes")
    (hversion : comp.index "Version" = Value.str "v1")
    (hrels : response.EntityTypeSummary.SuccessfulRelationships = [])
    (herrs : response.EntityTypeSummary.UnsuccessfulEntityNameWithError = []) :
    displayEntities env response =
      ⟨[Event.logInfo (env.BoldString "SUMMARY" ++ ": " ++ response.ErrMsg),
        Event.logInfo ("\n" ++ env.BoldString "MODEL" ++ ": " ++ "Kubernetes"),
        Event.println "",
        Event.table ["Component", "Version"] [["Pod", "v1"]]], some ()⟩ := by
  have hempty : displayEmtpyModel response = true := by
    unfold displayEmtpyModel
    by_cases h2 : response.EntityCount.CompCount = 0 <;>
      by_cases h3 : response.EntityCount.RelCount = 0 <;>
      by_cases h4 : response.EntityCount.TotalErrCount = 0 <;>
      simp_all
  have hcompsOut : displaySuccessfulComponents response "Kubernetes" =
      ⟨[Event.println "", Event.table ["Component", "Version"] [["Pod", "v1"]]], some ()⟩ := by
    simp [displaySuccessfulComponents, componentRows, hcomps, hmodel, hname, hversion,
      Value.stringOrZero, Run.andThen, Run.bind, Run.emit]
  have hrelsOut : displaySuccessfulRelationships env response "Kubernetes" = Run.ret () := by
    simp [displaySuccessfulRelationships, hrels]
  have herrsOut : displayUnsuccessfulEntities env response "Kubernetes" = Run.ret () := by
    simp [displayUnsuccessfulEntities, herrs]
  have hbucket : bucketModels env ["Kubernetes"] ([], []) = (["Kubernetes"], []) := by
    simp [bucketModels, hasExtension_Kubernetes]
  simp [displayEntities, displaySummary, hcount, hempty, displayEntitisIfModel, hnames,
    hbucket, displayModelInfo, displayModelBody, hcompsOut, hrelsOut, herrsOut, modelHeader,
    Run.andThen, Run.bind, Run.emit, Run.ret]

/-- Witness of C5 (amended): the scenario reply with `modelNames = ["Kubernetes"]` and a
component count of one. -/
theorem displayEntities_scenario_witness :
    displayEntities Env.std scenarioReply =
      ⟨[Event.logInfo ("\x1b[1mSUMMARY\x1b[0m" ++ ": " ++ "Imported 1 model"),
        Event.logInfo ("\n" ++ "\x1b[1mMODEL\x1b[0m" ++ ": " ++ "Kubernetes"),
        Event.println "",
        Event.table ["Component", "Version"] [["Pod", "v1"]]], some ()⟩ :=
  displayEntities_scenario Env.std scenarioReply podComponent rfl rfl (by decide) rfl rfl
    rfl rfl rfl rfl rfl

/-! ## Registration -/

/-- After a reply with status 200 whose body decodes, `registerModel` is the rendering
`displayEntities` followed by the return of the invalid-model error when `successfulModels`
is empty and of `nil` otherwise; its output is that of the rendering alone, and the value
is returned only when the rendering comes to its end. -/
theorem registerModel_result (env : Env) (w : World)
    (data componentData relationshipData : Option (List Byte))
    (filename dataType sourceURI : String) (register : Bool)
    (baseURL : String) (importRequest : ImportRequest) (requestBody : List Byte)
    (req : HttpRequest) (resp : HttpResponse) (bodyBytes : List Byte)
    (response : RegistryAPIResponse)
    (hcfg : w.GetBaseMesheryURL = Except.ok baseURL)
    (hbuild : buildImportRequest w data componentData relationshipData filename dataType
      sourceURI register = Except.ok importRequest)
    (hmarshal : w.Marshal importRequest = Except.ok requestBody)
    (hnew : w.NewRequest "POST" (baseURL ++ "/api/meshmodels/register") requestBody
      = Except.ok req)
    (hsend : w.MakeRequest
      { req with Header := ("Content-Type", "application/json") :: req.Header }
      = Except.ok resp)
    (hstatus : resp.StatusCode = 200)
    (hbody : resp.Body = Except.ok bodyBytes)
    (hdecode : w.UnmarshalResponse bodyBytes = Except.ok response) :
    registerModel env w data componentData relationshipData filename dataType sourceURI
        register =
      (displayEntities env response).andThen
        (Run.ret (if response.EntityTypeSummary.SuccessfulModels = [] then
          some Err.invalidModel else none)) ∧
    (registerModel env w data componentData relationshipData filename dataType sourceURI
        register).out = (displayEntities env response).out ∧
    ((displayEntities env response).val = some () →
      ((registerModel env w data componentData relationshipData filename dataType sourceURI
          register).val = some (some Err.invalidModel) ↔
        response.EntityTypeSummary.SuccessfulModels = []) ∧
      ((registerModel env w data componentData relationshipData filename dataType sourceURI
          register).val = some none ↔
        response.EntityTypeSummary.SuccessfulModels ≠ [])) := by
  have hmain : registerModel env w data componentData relationshipData filename dataType
      sourceURI register =
      (displayEntities env response).andThen
        (Run.ret (if response.EntityTypeSummary.SuccessfulModels = [] then
          some Err.invalidModel else none)) := by
    unfold registerModel
    simp only [hcfg, hbuild, hmarshal, hnew, hsend, hstatus, hbody, hdecode]
    by_cases hm : response.EntityTypeSummary.SuccessfulModels = []
    · simp [hm]
    · have hlen : response.EntityTypeSummary.SuccessfulModels.length ≠ 0 := by
        simpa [List.length_eq_zero] using hm
      simp [hm, hlen]
  refine ⟨hmain, ?_, ?_⟩
  · rw [hmain]
    rcases Run.val_unit_cases (displayEntities env response) with h | h
    · simp [Run.andThen_of_none _ _ h]
    · simp [Run.andThen_out_of_some _ _ h]
  · intro hdone
    rw [hmain, Run.andThen_val_of_some _ _ hdone]
    by_cases hm : response.EntityTypeSummary.SuccessfulModels = [] <;> simp [hm]

/-- A 200 reply decoding to the scenario reply gives `nil`; one decoding to a reply
without successful models gives the invalid-model error. -/
theorem registerModel_result_witness :
    registerModel Env.std (sampleWorld (Except.ok okReply) (Except.ok scenarioReply) false)
        (some []) none none "model.tar.gz" "file" "" true =
      (displayEntities Env.std scenarioReply).andThen
        (Run.ret (if scenarioReply.EntityTypeSummary.SuccessfulModels = [] then
          some Err.invalidModel else none)) ∧
    (registerModel Env.std (sampleWorld (Except.ok okReply) (Except.ok scenarioReply) false)
        (some []) none none "model.tar.gz" "file" "" true).val = some none ∧
    (registerModel Env.std
        (sampleWorld (Except.ok okReply) (Except.ok emptyResponse) false)
        (some []) none none "model.tar.gz" "file" "" true).val = some (some Err.invalidModel) :=
  have h := registerModel_result Env.std
    (sampleWorld (Except.ok okReply) (Except.ok scenarioReply) false)
    (some []) none none "model.tar.gz" "file" "" true "http://localhost:9081"
    { UploadType := "file",
      ImportBody := ⟨some [], "", "", "", none, "", "model.tar.gz"⟩, Register := true }
    [] ⟨"POST", "http://localhost:9081/api/meshmodels/register", [], []⟩ okReply []
    scenarioReply rfl rfl rfl rfl rfl rfl rfl rfl
  ⟨h.1, by decide, by decide⟩

/-! ## The command -/

theorem RunE_url_returns_nil (env : Env) (w : World) (file : String) (args : List String)
    (path : String) (hpath : (if file ≠ "" then some file else args.head?) = some path)
    (hurl : w.IsValidUrl path = true) (e : Err) :
    (RunE env w file args).val ≠ some (some e) := by
  have hsel : (if file ≠ "" then Run.ret file else Run.ofOption args.head?) = Run.ret path := by
    by_cases hf : file = ""
    · simp only [hf, ne_eq, not_true_eq_false, if_false] at hpath ⊢
      rw [hpath]; rfl
    · simp only [hf, ne_eq, not_false_eq_true, if_true] at hpath ⊢
      cases hpath; rfl
  unfold RunE
  rw [hsel, Run.ret_bind]
  simp only [hurl, if_true]
  cases hr : (registerModel env w none none none "" "urlImport" path true).val with
  | none => simp [Run.bind, hr]
  | some err =>
    cases err with
    | none => simp [Run.bind, hr]
    | some e' => simp [Run.bind, hr, Run.andThen, Run.emit, Run.ret]

theorem RunE_file_returns_error (env : Env) (w : World) (file : String) (args : List String)
    (path : String) (hpath : (if file ≠ "" then some file else args.head?) = some path)
    (hurl : w.IsValidUrl path = false) (hcsv : hasCSVs env w path = false)
    (tarData : List Byte) (fileName : String)
    (hpacked : (w.StatIsDir path = Except.ok true ∧ w.Compress path = Except.ok tarData ∧
        fileName = w.Base path ++ ".tar.gz") ∨
      (w.StatIsDir path = Except.ok false ∧ w.ReadFile path = Except.ok tarData ∧
        fileName = w.Base path))
    (e : Err)
    (hfail : (registerModel env w (some tarData) none none fileName "file" "" true).val
      = some (some e)) :
    (RunE env w file args).val = some (some e) := by
  have hsel : (if file ≠ "" then Run.ret file else Run.ofOption args.head?) = Run.ret path := by
    by_cases hf : file = ""
    · simp only [hf, ne_eq, not_true_eq_false, if_false] at hpath ⊢
      rw [hpath]; rfl
    · simp only [hf, ne_eq, not_false_eq_true, if_true] at hpath ⊢
      cases hpath; rfl
  unfold RunE
  rw [hsel, Run.ret_bind]
  simp only [hurl, hcsv, Bool.false_eq_true, if_false]
  unfold runFile
  rcases hpacked with ⟨h1, h2, h3⟩ | ⟨h1, h2, h3⟩
  · simp [h1, h2, ← h3, Run.bind, hfail]
  · simp [h1, h2, ← h3, Run.bind, hfail]

theorem RunE_csv_returns_error (env : Env) (w : World) (file : String) (args : List String)
    (path : String) (hpath : (if file ≠ "" then some file else args.head?) = some path)
    (hurl : w.IsValidUrl path = false) (hcsv : hasCSVs env w path = true)
    (modelcsvpath componentcsvpath relationshipcsvpath : String)
    (modelData componentData relationshipData : List Byte)
    (hget : w.GetCsv path = Except.ok (modelcsvpath, componentcsvpath, relationshipcsvpath))
    (hm : w.ReadFile modelcsvpath = Except.ok modelData)
    (hc : w.ReadFile componentcsvpath = Except.ok componentData)
    (hr : w.ReadFile relationshipcsvpath = Except.ok relationshipData)
    (e : Err)
    (hfail : (registerModel env w (some modelData) (some componentData)
      (some relationshipData) "model.csv" "csv" "" true).val = some (some e)) :
    (RunE env w file args).val = some (some e) := by
  have hsel : (if file ≠ "" then Run.ret file else Run.ofOption args.head?) = Run.ret path := by
    by_cases hf : file = ""
    · simp only [hf, ne_eq, not_true_eq_false, if_false] at hpath ⊢
      rw [hpath]; rfl
    · simp only [hf, ne_eq, not_false_eq_true, if_true] at hpath ⊢
      cases hpath; rfl
  unfold RunE
  rw [hsel, Run.ret_bind]
  simp only [hurl, hcsv, Bool.false_eq_true, if_false, if_true]
  unfold runCsv
  simp [hget, hm, hc, hr, Run.bind, hfail]

/-- C8: in Url mode a failure of `registerModel` is not returned to the top level.  With
a valid URL, `RunE` logs the error and returns `nil` when the request fails, when the
reply does not decode, and when no model was registered; with the same failing request
and a path that is not a URL (File mode) the error is returned. -/
theorem RunE_url_swallows_error :
    (RunE Env.std
        (sampleWorld (Except.error (Err.external "connection refused"))
          (Except.ok scenarioReply) true)
        "https://example.com/model.tar.gz" []).val = some none ∧
    (RunE Env.std
        (sampleWorld (Except.error (Err.external "connection refused"))
          (Except.ok scenarioReply) true)
        "https://example.com/model.tar.gz" []).out =
      [Event.logError (some (Err.external "connection refused"))] ∧
    (RunE Env.std
        (sampleWorld (Except.ok okReply) (Except.error (Err.external "bad json")) true)
        "https://example.com/model.tar.gz" []).val = some none ∧
    (RunE Env.std
        (sampleWorld (Except.ok okReply) (Except.ok emptyResponse) true)
        "https://example.com/model.tar.gz" []).val = some none ∧
    (RunE Env.std
        (sampleWorld (Except.ok okReply) (Except.ok emptyResponse) true)
        "https://example.com/model.tar.gz" []).out =
      [Event.logError (some Err.invalidModel)] ∧
    (RunE Env.std
        (sampleWorld (Except.error (Err.external "connection refused"))
          (Except.ok scenarioReply) false)
        "model.tar.gz" []).val = some (some (Err.external "connection refused")) :=
  ⟨by decide, by decide, by decide, by decide, by decide, by decide⟩

/-! ## The count line -/

theorem typeLookup_strings (entityTypes : List String) (i : Nat) :
    (if i < (entityTypes.map Value.str).length then
        Run.ofOption (((entityTypes.map Value.str).get? i).bind Value.assertString)
      else Run.ret "") = Run.ret (typeAt entityTypes i) := by
  by_cases hi : i < entityTypes.length
  · simp [hi, typeAt, List.getElem?_eq_getElem hi, Value.assertString, Run.ofOption]
  · have hnone : entityTypes[i]? = none := by
      simpa using Nat.le_of_not_lt hi
    simp [hi, typeAt, hnone]

theorem classifyEntity_strings (env : Env)
    (longDescription probableCause suggestedRemediation name entityType : String)
    (c : Counts) :
    classifyEntity env longDescription probableCause suggestedRemediation (Value.str name)
        entityType c =
      if entityType = "unknown" then
        ⟨referralBlock env name longDescription probableCause suggestedRemediation, some c⟩
      else if entityType = "component" then Run.ret { c with compCount := c.compCount + 1 }
      else if entityType = "relationship" then Run.ret { c with relCount := c.relCount + 1 }
      else Run.ret c := by
  unfold classifyEntity
  by_cases h1 : entityType = "unknown"
  · simp only [h1, if_true, Value.assertString, Run.ofOption, Run.ret_bind, referralBlock]
    by_cases hp : probableCause = "" <;> by_cases hs : suggestedRemediation = "" <;>
      simp [hp, hs, Run.andThen, Run.bind, Run.emit, Run.ret]
  · simp only [h1, if_false]

theorem entityStep_strings (env : Env) (entityTypes : List String)
    (longDescription probableCause suggestedRemediation m name : String) (hm : m ≠ "")
    (i : Nat) (c : Counts) :
    entityStep env (entityTypes.map Value.str) longDescription probableCause
        suggestedRemediation m i (Value.str name) c =
      if m ≠ name then Run.ret c
      else classifyEntity env longDescription probableCause suggestedRemediation
        (Value.str name) (typeAt entityTypes i) c := by
  unfold entityStep
  rw [typeLookup_strings, Run.ret_bind]
  simp only [hm, ne_eq, not_false_eq_true, if_true, Value.assertString, Run.ofOption,
    Run.ret_bind]

theorem entityLoop_strings (env : Env) (entityTypes names : List String)
    (longDescription probableCause suggestedRemediation m : String) (hm : m ≠ "")
    (i : Nat) (c : Counts) :
    entityLoop env (entityTypes.map Value.str) longDescription probableCause
        suggestedRemediation m i (names.map Value.str) c =
      ⟨referralEvents env longDescription probableCause suggestedRemediation m
          (entityPairs entityTypes i names),
        some ⟨c.compCount + attributedCount m "component" (entityPairs entityTypes i names),
          c.relCount + attributedCount m "relationship" (entityPairs entityTypes i names)⟩⟩ := by
  induction names generalizing i c with
  | nil => simp [entityLoop, entityPairs, referralEvents, attributedCount, Run.ret]
  | cons name rest ih =>
    simp only [List.map_cons, entityLoop, entityStep_strings _ _ _ _ _ _ _ hm,
      classifyEntity_strings]
    by_cases hn : m = name
    · subst hn
      by_cases h1 : typeAt entityTypes i = "unknown"
      · simp [h1, Run.bind, ih, entityPairs, referralEvents, attributedCount]
      · by_cases h2 : typeAt entityTypes i = "component"
        · simp [h2, Run.bind, Run.ret, ih, entityPairs, referralEvents, attributedCount,
            Nat.add_assoc, Nat.add_comm 1]
        · by_cases h3 : typeAt entityTypes i = "relationship"
          · simp [h3, Run.bind, Run.ret, ih, entityPairs, referralEvents, attributedCount,
              Nat.add_assoc, Nat.add_comm 1]
          · simp [h1, h2, h3, Run.bind, Run.ret, ih, entityPairs, referralEvents,
              attributedCount]
    · have hn' : name ≠ m := fun h => hn h.symm
      simp [hn, hn', Run.bind, Run.ret, ih, entityPairs, referralEvents, attributedCount]

theorem mem_entityPairs (entityTypes names : List String) (k : Nat) (p : String × String) :
    p ∈ entityPairs entityTypes k names ↔
      ∃ i, names.get? i = some p.1 ∧ p.2 = typeAt entityTypes (k + i) := by
  induction names generalizing k with
  | nil => simp [entityPairs]
  | cons name rest ih =>
    simp only [entityPairs, List.mem_cons, ih]
    constructor
    · rintro (h | ⟨i, h1, h2⟩)
      · exact ⟨0, by simp [h]⟩
      · exact ⟨i + 1, by simpa using h1, by rw [h2]; congr 1; omega⟩
    · rintro ⟨i, h1, h2⟩
      cases i with
      | zero =>
        left
        simp only [List.get?_cons_zero, Option.some.injEq] at h1
        exact Prod.ext h1.symm (by simpa using h2)
      | succ j =>
        right
        exact ⟨j, by simpa using h1, by rw [h2]; congr 1; omega⟩

theorem referralBlock_subset_referralEvents (env : Env)
    (longDescription probableCause suggestedRemediation m : String)
    (pairs : List (String × String)) (h : (m, "unknown") ∈ pairs) (e : Event)
    (he : e ∈ referralBlock env m longDescription probableCause suggestedRemediation) :
    e ∈ referralEvents env longDescription probableCause suggestedRemediation m pairs := by
  induction pairs with
  | nil => simp at h
  | cons p rest ih =>
    rw [referralEvents, List.mem_append]
    rcases List.mem_cons.1 h with h | h
    · left
      subst h
      simpa using he
    · exact Or.inr (ih h)

theorem attributedCount_eq_zero (m t : String) (pairs : List (String × String))
    (h : ∀ p ∈ pairs, p.1 = m → p.2 ≠ t) : attributedCount m t pairs = 0 := by
  unfold attributedCount
  rw [List.countP_eq_zero]
  intro p hp
  by_cases h1 : p.1 = m
  · simp [h1, h p hp h1]
  · simp [h1]

theorem attributedCount_disjoint (m : String) (pairs : List (String × String)) :
    attributedCount m "component" pairs + attributedCount m "relationship" pairs +
      attributedCount m "unknown" pairs ≤ pairs.countP fun p => decide (p.1 = m) := by
  unfold attributedCount
  induction pairs with
  | nil => simp
  | cons p rest ih =>
    simp only [List.countP_cons]
    by_cases h1 : p.1 = m
    · by_cases h2 : p.2 = "component"
      · simp [h1, h2]; omega
      · by_cases h3 : p.2 = "relationship"
        · simp [h1, h3]; omega
        · by_cases h4 : p.2 = "unknown"
          · simp [h1, h4]; omega
          · simp [h1, h2, h3, h4]; omega
    · simp [h1]; omega

/-- On an error entry whose names and types are all strings, and for a non-empty model
name `m`, `buildEntityTypeLine` emits the referral blocks of the entities named `m` whose
type is `unknown` and nothing else, and returns the count line of the numbers of entities
named `m` of type `component` and of type `relationship`; an `unknown` entity adds to
neither, and the line is empty when every entity named `m` is of type `unknown`. -/
theorem buildEntityTypeLine_unknown (env : Env) (names entityTypes : List String)
    (longDescription probableCause suggestedRemediation m : String) (hm : m ≠ "") :
    buildEntityTypeLine env (names.map Value.str) (entityTypes.map Value.str)
        longDescription probableCause suggestedRemediation m =
      ⟨referralEvents env longDescription probableCause suggestedRemediation m
          (entityPairs entityTypes 0 names),
        some (countLine
          ⟨attributedCount m "component" (entityPairs entityTypes 0 names),
            attributedCount m "relationship" (entityPairs entityTypes 0 names)⟩)⟩ ∧
    (∀ i, names.get? i = some m → typeAt entityTypes i = "unknown" →
      ∀ e ∈ referralBlock env m longDescription probableCause suggestedRemediation,
        e ∈ (buildEntityTypeLine env (names.map Value.str) (entityTypes.map Value.str)
          longDescription probableCause suggestedRemediation m).out) ∧
    attributedCount m "component" (entityPairs entityTypes 0 names) +
        attributedCount m "relationship" (entityPairs entityTypes 0 names) +
        attributedCount m "unknown" (entityPairs entityTypes 0 names) ≤
      (entityPairs entityTypes 0 names).countP (fun p => decide (p.1 = m)) ∧
    ((∀ i, names.get? i = some m → typeAt entityTypes i = "unknown") →
      (buildEntityTypeLine env (names.map Value.str) (entityTypes.map Value.str)
        longDescription probableCause suggestedRemediation m).val = some "") := by
  have hmain : buildEntityTypeLine env (names.map Value.str) (entityTypes.map Value.str)
        longDescription probableCause suggestedRemediation m =
      ⟨referralEvents env longDescription probableCause suggestedRemediation m
          (entityPairs entityTypes 0 names),
        some (countLine
          ⟨attributedCount m "component" (entityPairs entityTypes 0 names),
            attributedCount m "relationship" (entityPairs entityTypes 0 names)⟩)⟩ := by
    unfold buildEntityTypeLine
    rw [entityLoop_strings _ _ _ _ _ _ _ hm]
    simp [Run.bind, Run.ret]
  refine ⟨hmain, ?_, attributedCount_disjoint m _, ?_⟩
  · intro i hi ht e he
    rw [hmain]
    apply referralBlock_subset_referralEvents _ _ _ _ _ _ _ e he
    rw [mem_entityPairs]
    exact ⟨i, hi, by simp [ht]⟩
  · intro hall
    have hunk : ∀ p ∈ entityPairs entityTypes 0 names, p.1 = m → p.2 = "unknown" := by
      intro p hp hpm
      obtain ⟨i, h1, h2⟩ := (mem_entityPairs _ _ _ _).1 hp
      rw [h2, Nat.zero_add]
      exact hall i (by rw [h1, hpm])
    have hc : attributedCount m "component" (entityPairs entityTypes 0 names) = 0 :=
      attributedCount_eq_zero _ _ _ fun p hp hpm => by rw [hunk p hp hpm]; decide
    have hr : attributedCount m "relationship" (entityPairs entityTypes 0 names) = 0 :=
      attributedCount_eq_zero _ _ _ fun p hp hpm => by rw [hunk p hp hpm]; decide
    rw [hmain, hc, hr]
    rfl

/-- Two `unknown` entities named `Kubernetes` around a component of another model give
two referral lines and an empty count line. -/
theorem buildEntityTypeLine_unknown_witness :
    ("Kubernetes" : String) ≠ "" ∧
    buildEntityTypeLine Env.std
        (["Kubernetes", "Istio", "Kubernetes"].map Value.str)
        (["unknown", "component", "unknown"].map Value.str)
        "model not found" "" "" "Kubernetes" =
      ⟨referralEvents Env.std "model not found" "" "" "Kubernetes"
          (entityPairs ["unknown", "component", "unknown"] 0
            ["Kubernetes", "Istio", "Kubernetes"]),
        some (countLine
          ⟨attributedCount "Kubernetes" "component"
              (entityPairs ["unknown", "component", "unknown"] 0
                ["Kubernetes", "Istio", "Kubernetes"]),
            attributedCount "Kubernetes" "relationship"
              (entityPairs ["unknown", "component", "unknown"] 0
                ["Kubernetes", "Istio", "Kubernetes"])⟩)⟩ ∧
    (buildEntityTypeLine Env.std
        (["Kubernetes", "Istio", "Kubernetes"].map Value.str)
        (["unknown", "component", "unknown"].map Value.str)
        "model not found" "" "" "Kubernetes").val = some "" ∧
    (buildEntityTypeLine Env.std
        (["Kubernetes", "Istio", "Kubernetes"].map Value.str)
        (["unknown", "component", "unknown"].map Value.str)
        "model not found" "" "" "Kubernetes").out =
      [Event.logInfo (catalogReferral Env.std "Kubernetes" "model not found"),
       Event.logInfo (catalogReferral Env.std "Kubernetes" "model not found")] :=
  ⟨by decide,
   (buildEntityTypeLine_unknown Env.std ["Kubernetes", "Istio", "Kubernetes"]
      ["unknown", "component", "unknown"] "model not found" "" "" "Kubernetes"
      (by decide)).1,
   by decide, rfl⟩


/-! ## Attribution and the count line -/

theorem classifyEntity_Unknown (env : Env)
    (longDescription probableCause suggestedRemediation : String) (name : Value) (c : Counts) :
    classifyEntity env longDescription probableCause suggestedRemediation name "Unknown" c =
      Run.ret c := by
  unfold classifyEntity
  have h1 : ("Unknown" : String) ≠ "unknown" := by decide
  have h2 : ("Unknown" : String) ≠ "component" := by decide
  have h3 : ("Unknown" : String) ≠ "relationship" := by decide
  simp only [h1, h2, h3, if_false]

theorem entityLoop_empty_model (env : Env) (entityTypes : List String)
    (longDescription probableCause suggestedRemediation : String) (names : List Value)
    (i : Nat) (c : Counts) :
    entityLoop env (entityTypes.map Value.str) longDescription probableCause
        suggestedRemediation "" i names c = Run.ret c := by
  induction names generalizing i with
  | nil => rfl
  | cons name rest ih =>
    have hstep : entityStep env (entityTypes.map Value.str) longDescription probableCause
        suggestedRemediation "" i name c = Run.ret c := by
      unfold entityStep
      rw [typeLookup_strings, Run.ret_bind]
      by_cases ht : typeAt entityTypes i = "Unknown"
      · simp [ht, classifyEntity_Unknown]
      · simp [ht]
    rw [entityLoop, hstep, Run.ret_bind, ih]

theorem buildEntityTypeLine_empty_model (env : Env) (entityTypes : List String)
    (longDescription probableCause suggestedRemediation : String) (names : List Value) :
    buildEntityTypeLine env names (entityTypes.map Value.str) longDescription probableCause
        suggestedRemediation "" = Run.ret "" := by
  unfold buildEntityTypeLine
  rw [entityLoop_empty_model, Run.ret_bind]
  rfl

/-- Direct calls of `buildEntityTypeLine`: for the empty model name (which
`displayEntitisIfModel` never passes) an entity of type `unknown` is skipped and one of
type `Unknown` is kept without narrative; attributed by name, the type `unknown` gets the
narrative and the type `Unknown` does not. -/
theorem buildEntityTypeLine_no_model_bucket :
    (buildEntityTypeLine Env.std [Value.str "orphan"] [Value.str "unknown"]
        "model not found" "" "" "").out = [] ∧
    (buildEntityTypeLine Env.std [Value.str "orphan"] [Value.str "unknown"]
        "model not found" "" "" "").val = some "" ∧
    (buildEntityTypeLine Env.std [Value.str "orphan"] [Value.str "Unknown"]
        "model not found" "" "" "").out = [] ∧
    (buildEntityTypeLine Env.std [Value.str "orphan"] [Value.str "Unknown"]
        "model not found" "" "" "").val = some "" ∧
    (buildEntityTypeLine Env.std [Value.str "orphan"] [Value.str "unknown"]
        "model not found" "" "" "orphan").out =
      [Event.logInfo (catalogReferral Env.std "orphan" "model not found")] ∧
    (buildEntityTypeLine Env.std [Value.str "orphan"] [Value.str "Unknown"]
        "model not found" "" "" "orphan").out = [] :=
  ⟨by decide, by decide, by decide, by decide, rfl, by decide⟩


theorem String_append_eq_empty (a b : String) : a ++ b = "" ↔ a = "" ∧ b = "" := by
  constructor
  · intro h
    have hd : (a ++ b).data = [] := by rw [h]
    rw [String.data_append, List.append_eq_nil] at hd
    exact ⟨String.ext hd.1, String.ext hd.2⟩
  · rintro ⟨rfl, rfl⟩
    rfl

theorem componentPart_ne_empty (c : Nat) : componentPart c ≠ "" := by
  unfold componentPart
  intro h
  simp only [String.append_assoc, String_append_eq_empty] at h
  exact absurd h.1 (by decide)

theorem relationshipPart_ne_empty (r : Nat) : relationshipPart r ≠ "" := by
  unfold relationshipPart
  intro h
  simp only [String.append_assoc, String_append_eq_empty] at h
  exact absurd h.1 (by decide)

theorem specLine_eq_empty (c r : Nat) : specLine c r = "" ↔ c = 0 ∧ r = 0 := by
  unfold specLine
  by_cases hc : c = 0 <;> by_cases hr : r = 0
  · simp [hc, hr]
  · simp [hc, hr, relationshipPart_ne_empty]
  · simp [hc, hr, componentPart_ne_empty]
  · simp [hc, hr, String_append_eq_empty, componentPart_ne_empty]

theorem countLine_eq_specLine (c r : Nat) : countLine ⟨c, r⟩ = specLine c r := by
  unfold countLine specLine componentPart relationshipPart
  by_cases hc : c = 0 <;> by_cases hr : r = 0
  · simp [hc, hr]
  · have hr' : 0 < r := Nat.pos_of_ne_zero hr
    simp [hc, hr, hr']
  · have hc' : 0 < c := Nat.pos_of_ne_zero hc
    simp [hc, hr, hc']
  · have hc' : 0 < c := Nat.pos_of_ne_zero hc
    have hr' : 0 < r := Nat.pos_of_ne_zero hr
    simp [hc, hr, hc', hr']

theorem specCount_of_ne_empty (m t : String) (hm : m ≠ "") (pairs : List (String × String)) :
    specCount m t pairs = attributedCount m t pairs := by
  unfold specCount attributedCount specAttributed
  simp [hm]

theorem specCount_empty_model (t : String) (h1 : t ≠ "Unknown") (h2 : t ≠ "unknown")
    (pairs : List (String × String)) : specCount "" t pairs = 0 := by
  unfold specCount
  rw [List.countP_eq_zero]
  intro p _
  by_cases ht : p.2 = t
  · simp [specAttributed, ht, h1, h2]
  · simp [ht]

theorem buildEntityTypeLine_val (env : Env) (names entityTypes : List String)
    (longDescription probableCause suggestedRemediation m : String) :
    (buildEntityTypeLine env (names.map Value.str) (entityTypes.map Value.str)
        longDescription probableCause suggestedRemediation m).val =
      some (specLine (specCount m "component" (entityPairs entityTypes 0 names))
        (specCount m "relationship" (entityPairs entityTypes 0 names))) := by
  by_cases hm : m = ""
  · subst hm
    rw [buildEntityTypeLine_empty_model, specCount_empty_model _ (by decide) (by decide),
      specCount_empty_model _ (by decide) (by decide)]
    rfl
  · rw [specCount_of_ne_empty _ _ hm, specCount_of_ne_empty _ _ hm, ← countLine_eq_specLine]
    unfold buildEntityTypeLine
    rw [entityLoop_strings _ _ _ _ _ _ _ hm]
    simp [Run.bind, Run.ret]


theorem Run.bind_eq_of_val {α β : Type} (r : Run α) (f : α → Run β) (a : α)
    (h : r.val = some a) : r.bind f = ⟨r.out ++ (f a).out, (f a).val⟩ := by
  simp [Run.bind, h]

theorem reportEntity_strings (env : Env) (names entityTypes : List String)
    (errorDetails : GoMap) (m : String) :
    reportEntity env (names.map Value.str) (entityTypes.map Value.str) errorDetails m =
      ⟨descriptionLogs env errorDetails ++
        ((buildEntityTypeLine env (names.map Value.str) (entityTypes.map Value.str)
            (longDescriptionOf env errorDetails) (probableCauseOf env errorDetails)
            (suggestedRemediationOf env errorDetails) m).out ++
          (if specCount m "component" (entityPairs entityTypes 0 names) = 0 ∧
              specCount m "relationship" (entityPairs entityTypes 0 names) = 0 then []
           else
            [Event.println "",
             Event.logInfo ("  " ++ env.BoldString "ERROR" ++ ": Import did not occur for" ++
               specLine (specCount m "component" (entityPairs entityTypes 0 names))
                 (specCount m "relationship" (entityPairs entityTypes 0 names)) ++
               " error: \n  " ++ longDescriptionOf env errorDetails)])),
       some ()⟩ := by
  obtain ⟨d1, h1⟩ := buildDescription_completes env
    (errorDetails.index "LongDescription") "LongDescription"
  obtain ⟨d2, h2⟩ := buildDescriptionList_completes env
    (errorDetails.index "ProbableCause") "ProbableCause"
  obtain ⟨d3, h3⟩ := buildDescriptionList_completes env
    (errorDetails.index "SuggestedRemediation") "SuggestedRemediation"
  have h4 := buildEntityTypeLine_val env names entityTypes d1 d2 d3 m
  have e1 : longDescriptionOf env errorDetails = d1 := by simp [longDescriptionOf, h1]
  have e2 : probableCauseOf env errorDetails = d2 := by simp [probableCauseOf, h2]
  have e3 : suggestedRemediationOf env errorDetails = d3 := by
    simp [suggestedRemediationOf, h3]
  unfold reportEntity
  rw [Run.bind_eq_of_val _ _ d1 h1, Run.bind_eq_of_val _ _ d2 h2,
    Run.bind_eq_of_val _ _ d3 h3, Run.bind_eq_of_val _ _ _ h4, e1, e2, e3]
  by_cases hz : specCount m "component" (entityPairs entityTypes 0 names) = 0 ∧
      specCount m "relationship" (entityPairs entityTypes 0 names) = 0
  · have hl : specLine 0 0 = "" := (specLine_eq_empty 0 0).2 ⟨rfl, rfl⟩
    simp [hz, hl, descriptionLogs]
  · have hl : specLine (specCount m "component" (entityPairs entityTypes 0 names))
        (specCount m "relationship" (entityPairs entityTypes 0 names)) ≠ "" :=
      fun h => hz ((specLine_eq_empty _ _).1 h)
    simp [hz, hl, descriptionLogs, importDidNotOccur, Run.andThen, Run.bind, Run.emit]

theorem displayEntity_errorEntry (env : Env) (names entityTypes : List String)
    (kv : String × Value) (d : GoMap) (m : String) :
    displayEntity env m (errorEntry names entityTypes (Value.obj (kv :: d))) =
      reportEntity env (names.map Value.str) (entityTypes.map Value.str) (kv :: d) m := by
  simp [displayEntity, errorEntry, castMap, castSlice, GoMap.index]

/-- C12: for an error entry with string names and types, `buildEntityTypeLine` returns the
line fixed by the numbers `c` and `r` of attributed entities of type `component` and of
type `relationship` (an index past the end of `entityType` reads the empty type): empty
when both are zero, the component part alone, the relationship part alone, or the
component part, ` and`, then the relationship part, with `entities` exactly for a number
above one.  The line is empty exactly when `c = r = 0`, and for such an entry
`displayUnsuccessfulEntities` prints, after the log lines of the description builders and
the referral narratives, the error narrative with that line and the long description
exactly when the line is not empty. -/
theorem buildEntityTypeLine_count_line (env : Env) (response : RegistryAPIResponse)
    (names entityTypes : List String)
    (longDescription probableCause suggestedRemediation m : String)
    (kv : String × Value) (d : GoMap) :
    (buildEntityTypeLine env (names.map Value.str) (entityTypes.map Value.str)
        longDescription probableCause suggestedRemediation m).val =
      some (specLine (specCount m "component" (entityPairs entityTypes 0 names))
        (specCount m "relationship" (entityPairs entityTypes 0 names))) ∧
    (∀ c r, (specLine c r = "" ↔ c = 0 ∧ r = 0) ∧
      specLine (c + 1) 0 = " " ++ fmtD (c + 1) ++ " " ++
        (if c + 1 > 1 then "entities" else "entity") ++ " of type component" ∧
      specLine 0 (r + 1) = " " ++ fmtD (r + 1) ++ " " ++
        (if r + 1 > 1 then "entities" else "entity") ++ " of type relationship" ∧
      specLine (c + 1) (r + 1) = specLine (c + 1) 0 ++ " and" ++ specLine 0 (r + 1)) ∧
    displayUnsuccessfulEntities env
        (withUnsuccessful response [errorEntry names entityTypes (Value.obj (kv :: d))]) m =
      ⟨descriptionLogs env (kv :: d) ++
        ((buildEntityTypeLine env (names.map Value.str) (entityTypes.map Value.str)
            (longDescriptionOf env (kv :: d)) (probableCauseOf env (kv :: d))
            (suggestedRemediationOf env (kv :: d)) m).out ++
          (if specCount m "component" (entityPairs entityTypes 0 names) = 0 ∧
              specCount m "relationship" (entityPairs entityTypes 0 names) = 0 then []
           else
            [Event.println "",
             Event.logInfo ("  " ++ env.BoldString "ERROR" ++ ": Import did not occur for" ++
               specLine (specCount m "component" (entityPairs entityTypes 0 names))
                 (specCount m "relationship" (entityPairs entityTypes 0 names)) ++
               " error: \n  " ++ longDescriptionOf env (kv :: d))])),
       some ()⟩ := by
  refine ⟨buildEntityTypeLine_val .., fun c r => ⟨specLine_eq_empty c r, ?_, ?_, ?_⟩, ?_⟩
  · simp [specLine, componentPart]
  · simp [specLine, relationshipPart]
  · simp [specLine, componentPart, relationshipPart]
  · rw [displayUnsuccessfulEntities_eq]
    simp only [withUnsuccessful, Run.forEach_cons, Run.forEach_nil, Run.andThen_ret]
    rw [displayEntity_errorEntry, reportEntity_strings]


/-! ## Relationship groupings -/

theorem splitChars_no_sep (sep : Char) (a cur : List Char) (h : sep ∉ a) :
    splitChars sep a cur = [cur.reverse ++ a] := by
  induction a generalizing cur with
  | nil => simp [splitChars]
  | cons c rest ih =>
    have hc : c ≠ sep := fun hc => h (by simp [hc])
    have hrest : sep ∉ rest := fun hm => h (List.mem_cons_of_mem _ hm)
    simp [splitChars, hc, ih _ hrest]

theorem splitChars_append_sep (sep : Char) (a rest cur : List Char) (h : sep ∉ a) :
    splitChars sep (a ++ sep :: rest) cur = (cur.reverse ++ a) :: splitChars sep rest [] := by
  induction a generalizing cur with
  | nil => simp [splitChars]
  | cons c tail ih =>
    have hc : c ≠ sep := fun hc => h (by simp [hc])
    have htail : sep ∉ tail := fun hm => h (List.mem_cons_of_mem _ hm)
    simp [splitChars, hc, ih _ htail]

theorem SplitSlash_key (kind subtype relationshipType : String)
    (hk : '/' ∉ kind.data) (hs : '/' ∉ subtype.data) (ht : '/' ∉ relationshipType.data) :
    SplitSlash (kind ++ "/" ++ subtype ++ "/" ++ relationshipType) =
      [kind, subtype, relationshipType] := by
  unfold SplitSlash
  have hd : (kind ++ "/" ++ subtype ++ "/" ++ relationshipType).data =
      kind.data ++ '/' :: (subtype.data ++ '/' :: relationshipType.data) := by
    simp [String.data_append]
  rw [hd, splitChars_append_sep _ _ _ _ hk, splitChars_append_sep _ _ _ _ hs,
    splitChars_no_sep _ _ _ ht]
  simp

theorem renderGroup_no_slash (env : Env) (kind subtype relationshipType : String)
    (row : List String) (rows : Rows)
    (hk : '/' ∉ kind.data) (hs : '/' ∉ subtype.data) (ht : '/' ∉ relationshipType.data) :
    renderGroup env (kind ++ "/" ++ subtype ++ "/" ++ relationshipType, row :: rows) =
      ⟨[Event.println "",
        Event.logInfo ("  " ++
          (if rows ≠ [] then env.BoldString "RELATIONSHIPS:"
           else env.BoldString "RELATIONSHIP:") ++
          " Kind of " ++ kind ++ ", sub type " ++ subtype ++ " and type " ++
          relationshipType),
        Event.table ["From", "To"] (row :: rows)], some ()⟩ := by
  unfold renderGroup
  simp only [SplitSlash_key _ _ _ hk hs ht]
  cases rows with
  | nil => simp [Run.andThen, Run.bind, Run.emit, Run.ofOption, Run.ret]
  | cons r rest => simp [Run.andThen, Run.bind, Run.emit, Run.ofOption, Run.ret]

theorem mapAppend_keys (m : List (String × Rows)) (key : String) (row : List String) :
    (mapAppend m key row).map Prod.fst =
      if key ∈ m.map Prod.fst then m.map Prod.fst else m.map Prod.fst ++ [key] := by
  induction m with
  | nil => simp [mapAppend]
  | cons e rest ih =>
    obtain ⟨k, rows⟩ := e
    unfold mapAppend
    by_cases hk : k = key
    · simp [hk]
    · have hk' : key ≠ k := fun h => hk h.symm
      by_cases hmem : key ∈ rest.map Prod.fst
      · simp only [hk, if_false, List.map_cons, ih, hmem, if_true, List.mem_cons, hk',
          false_or]
      · simp only [hk, if_false, List.map_cons, ih, hmem, List.mem_cons, hk', false_or,
          List.cons_append]

theorem mapAppend_keys_nodup (m : List (String × Rows)) (key : String) (row : List String)
    (h : (m.map Prod.fst).Nodup) : ((mapAppend m key row).map Prod.fst).Nodup := by
  rw [mapAppend_keys]
  by_cases hmem : key ∈ m.map Prod.fst
  · simpa [hmem] using h
  · simp only [hmem, if_false]
    rw [List.nodup_append]
    refine ⟨h, by simp, ?_⟩
    intro a ha hb
    simp only [List.mem_singleton] at hb
    exact hmem (hb ▸ ha)

theorem selectorLoop_keys_nodup (env : Env) (kind subtype relationshipType : String)
    (selectors : List Value) (st st' : RelState)
    (hnd : (st.relationshipMap.map Prod.fst).Nodup)
    (h : selectorLoop env kind subtype relationshipType selectors st = some st') :
    (st'.relationshipMap.map Prod.fst).Nodup := by
  induction selectors generalizing st with
  | nil =>
    simp only [selectorLoop, Option.some.injEq] at h
    exact h ▸ hnd
  | cons selector rest ih =>
    simp only [selectorLoop, Option.bind_eq_some] at h
    obtain ⟨st1, h1, h2⟩ := h
    refine ih st1 ?_ h2
    unfold selectorStep at h1
    simp only [Option.bind_eq_some] at h1
    obtain ⟨_, -, _, -, _, -, _, -, _, -, fromMap, -, _, -, toMap, -, h1⟩ := h1
    split at h1
    · simp only [Option.some.injEq] at h1
      exact h1 ▸ hnd
    · simp only [Option.some.injEq] at h1
      subst h1
      exact mapAppend_keys_nodup _ _ _ hnd

theorem relLoop_keys_nodup (env : Env) (model : String) (rels : List GoMap)
    (st st' : RelState) (hnd : (st.relationshipMap.map Prod.fst).Nodup)
    (h : relLoop env model rels st = some st') :
    (st'.relationshipMap.map Prod.fst).Nodup := by
  induction rels generalizing st with
  | nil =>
    simp only [relLoop, Option.some.injEq] at h
    exact h ▸ hnd
  | cons rel rest ih =>
    simp only [relLoop, Option.bind_eq_some] at h
    obtain ⟨st1, h1, h2⟩ := h
    refine ih st1 ?_ h2
    unfold relStep at h1
    simp only [Option.bind_eq_some] at h1
    obtain ⟨kind, -, subtype, -, relationshipType, -, modelName, -, h1⟩ := h1
    split at h1
    · simp only [Option.some.injEq] at h1
      exact h1 ▸ hnd
    · simp only [Option.bind_eq_some] at h1
      obtain ⟨selectors, -, h1⟩ := h1
      exact selectorLoop_keys_nodup _ _ _ _ _ _ _ hnd h1

/-- C13: the grouping key joins kind, subtype and type with `/` and is split again at
every `/`.  For the triple (`a/b`, `c`, `d`) the line before the table names kind `a`,
sub type `b` and type `c`; and the different triples (`a/b`, `c`, `d`) and
(`a`, `b/c`, `d`) share the key `a/b/c/d`, so their rows are printed in one table under
one line instead of two tables. -/
theorem displaySuccessfulRelationships_slash_in_kind :
    (displaySuccessfulRelationships Env.std
        (withRelationships emptyResponse [sampleSlashKindRel]) "Kubernetes").out =
      [Event.println "",
       Event.logInfo "  \x1b[1mRELATIONSHIP:\x1b[0m Kind of a, sub type b and type c",
       Event.table ["From", "To"] [["Service", "Pod"]]] ∧
    (displaySuccessfulRelationships Env.std
        (withRelationships emptyResponse [sampleSlashKindRel, sampleSlashSubtypeRel])
        "Kubernetes").out =
      [Event.println "",
       Event.logInfo "  \x1b[1mRELATIONSHIPS:\x1b[0m Kind of a, sub type b and type c",
       Event.table ["From", "To"] [["Service", "Pod"], ["Pod", "Node"]]] :=
  ⟨by decide, by decide⟩

/-- C19: edges that differ are taken for duplicates when the concatenations of key, from
and to coincide.  Within one grouping, of the edges `ab → c` and `a → bc` only `[ab, c]`
is printed; across groupings, the edge `y → z` of (Edge, Network, bindingx) has the
seen-key of the edge `xy → z` of (Edge, Network, binding) and its grouping gets no table
at all. -/
theorem displaySuccessfulRelationships_suppresses_distinct_edges :
    (displaySuccessfulRelationships Env.std
        (withRelationships emptyResponse [sampleTwoEdgesRel]) "Kubernetes").out =
      [Event.println "",
       Event.logInfo ("  \x1b[1mRELATIONSHIP:\x1b[0m Kind of Edge, sub type Network " ++
         "and type binding"),
       Event.table ["From", "To"] [["ab", "c"]]] ∧
    (displaySuccessfulRelationships Env.std
        (withRelationships emptyResponse [sampleBindingRel, sampleBindingxRel])
        "Kubernetes").out =
      [Event.println "",
       Event.logInfo ("  \x1b[1mRELATIONSHIP:\x1b[0m Kind of Edge, sub type Network " ++
         "and type binding"),
       Event.table ["From", "To"] [["xy", "z"]]] :=
  ⟨by decide, by decide⟩

/-- C18: the relationship tables of a model are printed in the order in which `range`
visits the grouping map, which Go leaves open.  For a reply whose model has relationships
in two groupings, a run that visits the map in insertion order and a run that visits it
in the reverse order print the two tables in opposite orders, so the two outputs
differ. -/
theorem displayEntities_order_depends_on_map_range :
    (displayEntities Env.std sampleTwoGroupings).out =
      [Event.logInfo "\x1b[1mSUMMARY\x1b[0m: Imported 1 model",
       Event.logInfo "\n\x1b[1mMODEL\x1b[0m: Kubernetes",
       Event.println "",
       Event.logInfo ("  \x1b[1mRELATIONSHIP:\x1b[0m Kind of Edge, sub type Network " ++
         "and type binding"),
       Event.table ["From", "To"] [["Service", "Pod"]],
       Event.println "",
       Event.logInfo ("  \x1b[1mRELATIONSHIP:\x1b[0m Kind of Hierarchical, sub type " ++
         "Inventory and type parent"),
       Event.table ["From", "To"] [["Namespace", "Pod"]]] ∧
    (displayEntities Env.reversed sampleTwoGroupings).out =
      [Event.logInfo "\x1b[1mSUMMARY\x1b[0m: Imported 1 model",
       Event.logInfo "\n\x1b[1mMODEL\x1b[0m: Kubernetes",
       Event.println "",
       Event.logInfo ("  \x1b[1mRELATIONSHIP:\x1b[0m Kind of Hierarchical, sub type " ++
         "Inventory and type parent"),
       Event.table ["From", "To"] [["Namespace", "Pod"]],
       Event.println "",
       Event.logInfo ("  \x1b[1mRELATIONSHIP:\x1b[0m Kind of Edge, sub type Network " ++
         "and type binding"),
       Event.table ["From", "To"] [["Service", "Pod"]]] ∧
    (displayEntities Env.std sampleTwoGroupings).out ≠
      (displayEntities Env.reversed sampleTwoGroupings).out :=
  ⟨by decide, by decide, by decide⟩


/-! ## The CSV request -/

theorem b64Char_facts :
    ∀ n, n < 64 → b64Index (b64Char n) = some n ∧ b64Char n ≠ '=' := by
  decide

theorem toByte_val (a : Byte) (n : Nat) (h : n = a.val) : toByte n = a := by
  subst h
  apply Fin.ext
  simp [toByte, Nat.mod_eq_of_lt a.isLt]

theorem b64Decode_b64Encode (bs : List Byte) : b64Decode (b64Encode bs) = some bs := by
  induction bs using b64Encode.induct with
  | case1 => rfl
  | case2 a =>
    have ha := a.isLt
    have h0 := b64Char_facts (a.val / 4) (by omega)
    have h1 := b64Char_facts (a.val % 4 * 16) (by omega)
    simp only [b64Encode, b64Decode, h0.1, h1.1, if_true, ne_eq, not_true_eq_false,
      if_false, Option.some_bind, Option.some.injEq, List.cons.injEq, and_true]
    exact toByte_val a _ (by omega)
  | case3 a b =>
    have ha := a.isLt
    have hb := b.isLt
    have h0 := b64Char_facts (a.val / 4) (by omega)
    have h1 := b64Char_facts (a.val % 4 * 16 + b.val / 16) (by omega)
    have h2 := b64Char_facts (b.val % 16 * 4) (by omega)
    simp only [b64Encode, b64Decode, h0.1, h1.1, h2.1, h2.2, if_true, ne_eq,
      not_true_eq_false, if_false, Option.some_bind, Option.some.injEq, List.cons.injEq,
      and_true]
    exact ⟨toByte_val a _ (by omega), toByte_val b _ (by omega)⟩
  | case4 a b c rest ih =>
    have ha := a.isLt
    have hb := b.isLt
    have hc := c.isLt
    have h0 := b64Char_facts (a.val / 4) (by omega)
    have h1 := b64Char_facts (a.val % 4 * 16 + b.val / 16) (by omega)
    have h2 := b64Char_facts (b.val % 16 * 4 + c.val / 64) (by omega)
    have h3 := b64Char_facts (c.val % 64) (by omega)
    simp only [b64Encode, b64Decode, h0.1, h1.1, h2.1, h3.1, h3.2, if_false, ih,
      Option.some_bind, Option.some.injEq, List.cons.injEq, and_true]
    exact ⟨toByte_val a _ (by omega), toByte_val b _ (by omega), toByte_val c _ (by omega)⟩

theorem stripPrefixChars_append (p s : List Char) : stripPrefixChars p (p ++ s) = some s := by
  induction p with
  | nil => rfl
  | cons c p ih => simp [stripPrefixChars, ih]

theorem decodeCsvField_encode (data : Option (List Byte)) :
    decodeCsvField ("data:text/csv;base64," ++ EncodeToString data) = some (data.getD []) := by
  unfold decodeCsvField EncodeToString
  rw [String.data_append, stripPrefixChars_append, Option.some_bind, b64Decode_b64Encode]


theorem registerModel_marshals_built_request (env : Env) (w : World)
    (data componentData relationshipData : Option (List Byte))
    (filename dataType sourceURI : String) (register : Bool) (baseURL : String)
    (r : ImportRequest) (e : Err)
    (hcfg : w.GetBaseMesheryURL = Except.ok baseURL)
    (hbuild : buildImportRequest w data componentData relationshipData filename dataType
      sourceURI register = Except.ok r)
    (hmarshal : w.Marshal r = Except.error e) :
    registerModel env w data componentData relationshipData filename dataType sourceURI
      register = Run.ret (some e) := by
  unfold registerModel
  simp only [hcfg, hbuild, hmarshal]

/-- C14: for every three byte buffers (empty and nil ones included) the request that
`registerModel` builds in Csv mode carries `modelCsv`, `componentCsv` and
`relationshipCsv` equal to `data:text/csv;base64,` followed by the standard base64
encoding of the buffer, and stripping the prefix and base64-decoding each field gives the
bytes of the buffer back. -/
theorem csv_request_roundtrip (w : World)
    (data componentData relationshipData : Option (List Byte))
    (filename sourceURI : String) (register : Bool) :
    ∃ r, buildImportRequest w data componentData relationshipData filename "csv" sourceURI
        register = Except.ok r ∧
      r.UploadType = "csv" ∧
      r.ImportBody.ModelCsv = "data:text/csv;base64," ++ EncodeToString data ∧
      r.ImportBody.ComponentCsv = "data:text/csv;base64," ++ EncodeToString componentData ∧
      r.ImportBody.RelationshipCSV =
        "data:text/csv;base64," ++ EncodeToString relationshipData ∧
      decodeCsvField r.ImportBody.ModelCsv = some (data.getD []) ∧
      decodeCsvField r.ImportBody.ComponentCsv = some (componentData.getD []) ∧
      decodeCsvField r.ImportBody.RelationshipCSV = some (relationshipData.getD []) ∧
      EncodeToString (some []) = "" ∧ EncodeToString none = "" := by
  refine ⟨_, by simp only [buildImportRequest, if_true]; rfl, rfl, rfl, rfl, rfl, ?_, ?_, ?_,
    rfl, rfl⟩
  · exact decodeCsvField_encode data
  · exact decodeCsvField_encode componentData
  · exact decodeCsvField_encode relationshipData


/-! ## The input classifier -/

theorem anyCsv_iff (env : Env) (files : List DirEntry) :
    anyCsv env files = true ↔
      ∃ f ∈ files, f.IsDir = false ∧ EqualFold env (Ext env f.Name) ".csv" = true := by
  induction files with
  | nil => simp [anyCsv]
  | cons f rest ih =>
    cases hc : (!f.IsDir && EqualFold env (Ext env f.Name) ".csv") with
    | true =>
      have hval : anyCsv env (f :: rest) = true := by simp [anyCsv, hc]
      simp only [Bool.and_eq_true, Bool.not_eq_true'] at hc
      simp only [hval, true_iff]
      exact ⟨f, List.mem_cons_self _ _, hc.1, hc.2⟩
    | false =>
      have hval : anyCsv env (f :: rest) = anyCsv env rest := by simp [anyCsv, hc]
      have hf : ¬ (f.IsDir = false ∧ EqualFold env (Ext env f.Name) ".csv" = true) := by
        intro h
        simp [h.1, h.2] at hc
      rw [hval, ih]
      constructor
      · rintro ⟨g, hg, h1, h2⟩
        exact ⟨g, List.mem_cons_of_mem _ hg, h1, h2⟩
      · rintro ⟨g, hg, h1, h2⟩
        rcases List.mem_cons.1 hg with hg | hg
        · subst hg
          exact absurd ⟨h1, h2⟩ hf
        · exact ⟨g, hg, h1, h2⟩

theorem hasCSVs_iff (env : Env) (w : World) (path : String) :
    hasCSVs env w path = true ↔
      ∃ files, w.ReadDir path = Except.ok files ∧
        ∃ f ∈ files, f.IsDir = false ∧ EqualFold env (Ext env f.Name) ".csv" = true := by
  unfold hasCSVs
  cases h : w.ReadDir path with
  | error e => simp
  | ok files => simp [anyCsv_iff]

theorem equalFoldChars_ascii (env : Env) (s t : List Char)
    (hs : ∀ c ∈ s, c.toNat < 128) (ht : ∀ c ∈ t, c.toNat < 128) :
    equalFoldChars env s t = true ↔ s.map Char.toLower = t.map Char.toLower := by
  induction s generalizing t with
  | nil => cases t <;> simp [equalFoldChars]
  | cons a s ih =>
    cases t with
    | nil => simp [equalFoldChars]
    | cons b t =>
      have hab := env.foldEq_ascii a b (hs a (List.mem_cons_self _ _))
        (ht b (List.mem_cons_self _ _))
      have ih' := ih t (fun c hc => hs c (List.mem_cons_of_mem _ hc))
        (fun c hc => ht c (List.mem_cons_of_mem _ hc))
      simp [equalFoldChars, hab, ih']

theorem EqualFold_csv_ascii (env : Env) (ext : String) (h : ∀ c ∈ ext.data, c.toNat < 128) :
    EqualFold env ext ".csv" = true ↔ ext.data.map Char.toLower = ['.', 'c', 's', 'v'] := by
  unfold EqualFold
  rw [equalFoldChars_ascii env _ _ h (by decide)]
  rfl

theorem RunE_not_url (env : Env) (w : World) (file : String) (args : List String)
    (path : String) (hpath : selectedPath file args = some path)
    (hurl : w.IsValidUrl path = false) :
    RunE env w file args =
      if hasCSVs env w path then runCsv env w path else runFile env w path := by
  have hsel : (if file ≠ "" then Run.ret file else Run.ofOption args.head?) = Run.ret path := by
    unfold selectedPath at hpath
    by_cases hf : file = ""
    · simp only [hf, ne_eq, not_true_eq_false, if_false] at hpath ⊢
      rw [hpath]; rfl
    · simp only [hf, ne_eq, not_false_eq_true, if_true] at hpath ⊢
      cases hpath; rfl
  unfold RunE
  rw [hsel, Run.ret_bind]
  simp [hurl]

/-- C15: for a path that is not a valid URL the command takes the Csv branch exactly when
the path can be listed as a directory and the listing holds an entry that is not a
directory and whose extension is `.csv` under the case folding of `strings.EqualFold`;
otherwise (no such entry, or no listing) it takes the File branch.  For an extension of
ASCII characters the folding test is equality of the lower-case form with `.csv`. -/
theorem hasCSVs_selects_csv (env : Env) (w : World) (file : String) (args : List String)
    (path : String) (hpath : selectedPath file args = some path)
    (hurl : w.IsValidUrl path = false) :
    (hasCSVs env w path = true ↔
      ∃ files, w.ReadDir path = Except.ok files ∧
        ∃ f ∈ files, f.IsDir = false ∧ EqualFold env (Ext env f.Name) ".csv" = true) ∧
    (hasCSVs env w path = true → RunE env w file args = runCsv env w path) ∧
    (hasCSVs env w path = false → RunE env w file args = runFile env w path) ∧
    (∀ ext : String, (∀ c ∈ ext.data, c.toNat < 128) →
      (EqualFold env ext ".csv" = true ↔
        ext.data.map Char.toLower = ['.', 'c', 's', 'v'])) := by
  refine ⟨hasCSVs_iff env w path, ?_, ?_, EqualFold_csv_ascii env⟩
  · intro h
    rw [RunE_not_url env w file args path hpath hurl, h]
    rfl
  · intro h
    rw [RunE_not_url env w file args path hpath hurl, h]
    rfl

/-- Witness of C15: a listing with `notes.txt`, a directory `old.csv` and the file
`Models.CSV` selects the Csv branch; the listing without `Models.CSV`, and a path that
cannot be listed, select the File branch. -/
theorem hasCSVs_selects_csv_witness :
    selectedPath "./models" [] = some "./models" ∧
    hasCSVs Env.std (listingWorld (Except.ok sampleListing)) "./models" = true ∧
    RunE Env.std (listingWorld (Except.ok sampleListing)) "./models" [] =
      runCsv Env.std (listingWorld (Except.ok sampleListing)) "./models" ∧
    hasCSVs Env.std (listingWorld (Except.ok [⟨"notes.txt", false⟩, ⟨"old.csv", true⟩]))
      "./models" = false ∧
    hasCSVs Env.std (listingWorld (Except.error (Err.external "not a directory")))
      "./models" = false :=
  ⟨by decide, by decide,
   (hasCSVs_selects_csv Env.std (listingWorld (Except.ok sampleListing)) "./models" []
      "./models" (by decide) rfl).2.1 (by decide),
   by decide, by decide⟩


/-! ## The argument validator -/

/-- C16: the validator accepts an invocation that supplies both a `--file` value and a
positional argument, although not exactly one of the two is supplied. -/
theorem Args_accepts_both :
    Args "model.yaml" ["other.yaml"] = none ∧
    exactlyOneInput "model.yaml" ["other.yaml"] = false ∧
    ¬ (∀ file args, Args file args = none ↔
      (exactlyOneInput file args = true ∧ args.length ≤ 1)) :=
  ⟨by decide, by decide, fun h =>
    absurd ((h "model.yaml" ["other.yaml"]).1 (by decide)).1 (by decide)⟩

theorem Args_none_given : Args "" [] =
    some (Err.external ("[ file | filepath | URL ] isn\x27t specified" ++ "\n\n" ++ errMsg)) := by
  rfl

theorem Args_one (file a : String) : Args file [a] = none := by
  simp [Args]

theorem Args_flag_only (file : String) (h : file ≠ "") : Args file [] = none := by
  simp [Args, h]

theorem Args_many (file a b : String) (rest : List String) :
    Args file (a :: b :: rest) =
      some (Err.external ("too many arguments" ++ "\n\n" ++ errMsg)) := by
  have e : ("too many arguments\n\n" ++ errMsg : String) =
      "too many arguments" ++ "\n\n" ++ errMsg := by rfl
  unfold Args
  rw [e]
  simp

theorem Args_messages_differ :
    Err.external ("[ file | filepath | URL ] isn\x27t specified" ++ "\n\n" ++ errMsg) ≠
      Err.external ("too many arguments" ++ "\n\n" ++ errMsg) := by
  intro h
  have hd := congrArg (fun s : String => s.data.head?) (Err.external.inj h)
  simp only [String.data_append] at hd
  exact absurd hd (by decide)

/-- C16 (amended): the validator accepts an invocation if and only if at least one of a
non-empty `--file` value and a positional argument is supplied and at most one positional
argument is given; every other invocation is rejected with an error whose message is a
reason followed by a blank line and the fixed help message. -/
theorem Args_accepts_iff (file : String) (args : List String) :
    (Args file args = none ↔ (file ≠ "" ∨ args ≠ []) ∧ args.length ≤ 1) ∧
    (Args file args = none ∨
      ∃ reason, Args file args = some (Err.external (reason ++ "\n\n" ++ errMsg))) ∧
    (Args file args =
        some (Err.external ("[ file | filepath | URL ] isn\x27t specified" ++ "\n\n" ++ errMsg)) ↔
      file = "" ∧ args = []) ∧
    (Args file args = some (Err.external ("too many arguments" ++ "\n\n" ++ errMsg)) ↔
      1 < args.length) := by
  cases args with
  | nil =>
    by_cases hf : file = ""
    · subst hf
      rw [Args_none_given]
      refine ⟨by simp, Or.inr ⟨_, rfl⟩, by simp, ?_⟩
      constructor
      · intro h
        exact absurd (Option.some.inj h) Args_messages_differ
      · intro h
        simp at h
    · rw [Args_flag_only file hf]
      exact ⟨by simp [hf], Or.inl rfl, by simp [hf], by simp⟩
  | cons a rest =>
    cases rest with
    | nil =>
      rw [Args_one]
      exact ⟨by simp, Or.inl rfl, by simp, by simp⟩
    | cons b rest2 =>
      rw [Args_many]
      refine ⟨by simp, Or.inr ⟨_, rfl⟩, ?_, by simp⟩
      constructor
      · intro h
        exact absurd (Option.some.inj h).symm Args_messages_differ
      · intro h
        simp at h


/-! ## Elements that are not strings -/

/-- C17: an error entry that passes the four casts but has a number among its names, or
among its types, makes the classification panic.  With the number-named entry first, the
run for `Istio` ends in a panic before the well-formed `Istio` entry is reported, and
`displayEntities` ends in a panic right after the `MODEL: Kubernetes` header, so `Istio`
is not rendered; without that entry the `Istio` entry is reported. -/
theorem displayUnsuccessfulEntities_panics_on_number :
    passesCasts numberNameEntry = true ∧ passesCasts numberTypeEntry = true ∧
    (displayUnsuccessfulEntities Env.std sampleNumberName "Istio").val = none ∧
    (displayUnsuccessfulEntities Env.std sampleNumberName "Istio").out = [] ∧
    (displayUnsuccessfulEntities Env.std
        (withUnsuccessful emptyResponse [numberTypeEntry]) "Kubernetes").val = none ∧
    (displayEntities Env.std sampleNumberName).val = none ∧
    (displayEntities Env.std sampleNumberName).out =
      [Event.logInfo "\x1b[1mSUMMARY\x1b[0m: Imported 2 models",
       Event.logInfo "\n\x1b[1mMODEL\x1b[0m: Kubernetes"] ∧
    (displayUnsuccessfulEntities Env.std
        (withUnsuccessful sampleNumberName
          [errorEntry ["Istio"] ["component"] (errorDetail "no schema")]) "Istio").out =
      [Event.println "",
       Event.logInfo ("  \x1b[1mERROR\x1b[0m: Import did not occur for 1 entity of type " ++
         "component error: \n  no schema")] :=
  ⟨by decide, by decide, by decide, by decide, by decide, by decide, by decide, by decide⟩


/-! ## The list of model names -/

theorem Join_append_singleton (sep : String) (acc : List String) (m : String)
    (h : acc ≠ []) : Join sep (acc ++ [m]) = Join sep acc ++ sep ++ m := by
  induction acc with
  | nil => exact absurd rfl h
  | cons a rest ih =>
    cases rest with
    | nil => simp [Join]
    | cons b rest2 =>
      have ih' := ih (by simp)
      have e1 : Join sep (a :: b :: rest2 ++ [m]) =
          a ++ sep ++ Join sep (b :: rest2 ++ [m]) := rfl
      have e2 : Join sep (a :: b :: rest2) = a ++ sep ++ Join sep (b :: rest2) := rfl
      rw [e1, e2, ih']
      simp only [String.append_assoc]

theorem Join_eq_empty (sep : String) (acc : List String) (hne : ∀ a ∈ acc, a ≠ "") :
    Join sep acc = "" ↔ acc = [] := by
  cases acc with
  | nil => simp [Join]
  | cons a rest =>
    have ha : a ≠ "" := hne a (List.mem_cons_self _ _)
    cases rest with
    | nil => simp [Join, ha]
    | cons b rest2 => simp [Join, String_append_eq_empty, ha]

theorem String_length_pos (s : String) : s.length > 0 ↔ s ≠ "" := by
  constructor
  · intro h hs
    subst hs
    simp at h
  · intro h
    have hd : s.data ≠ [] := fun hd => h (String.ext hd)
    exact List.length_pos.2 hd

theorem modelNamesLoop_eq (l : List String) (acc seen : List String)
    (hne : ∀ a ∈ acc, a ≠ "") :
    modelNamesLoop l (Join ", " acc) seen = Join ", " (acc ++ newNames seen l) := by
  induction l generalizing acc seen with
  | nil => simp [modelNamesLoop, newNames]
  | cons m rest ih =>
    unfold modelNamesLoop newNames
    by_cases hm : m = ""
    · simp [hm, ih acc seen hne]
    · by_cases hs : m ∈ seen
      · simp [hm, hs, ih acc seen hne]
      · have hacc : ∀ a ∈ acc ++ [m], a ≠ "" := by
          intro a ha
          rcases List.mem_append.1 ha with ha | ha
          · exact hne a ha
          · simp only [List.mem_singleton] at ha
            exact ha ▸ hm
        have hstep : (if (Join ", " acc).length > 0 then Join ", " acc ++ ", "
            else Join ", " acc) ++ m = Join ", " (acc ++ [m]) := by
          by_cases ha : acc = []
          · subst ha
            simp [Join]
          · have hpos : (Join ", " acc).length > 0 :=
              (String_length_pos _).2 fun h => ha ((Join_eq_empty _ _ hne).1 h)
            simp only [hpos, if_true, Join_append_singleton _ _ _ ha]
        simp only [hm, hs, ne_eq, not_false_eq_true, and_self, if_true, hstep]
        rw [ih (acc ++ [m]) (m :: seen) hacc]
        simp

theorem newNames_eq (seen l : List String) :
    newNames seen l =
      (firstOccurrences (l.filter fun m => decide (m ≠ ""))).filter
        fun m => decide (m ∉ seen) := by
  induction l generalizing seen with
  | nil => simp [newNames, firstOccurrences]
  | cons m rest ih =>
    unfold newNames
    by_cases hm : m = ""
    · simp [hm, ih seen]
    · by_cases hs : m ∈ seen
      · simp only [hm, hs, not_true_eq_false, and_false, if_false, ih seen, ne_eq,
          not_false_eq_true, decide_True, List.filter_cons_of_pos, firstOccurrences,
          decide_False, Bool.false_eq_true, List.filter_cons_of_neg, List.filter_filter]
        apply List.filter_congr
        intro x _
        by_cases hx : x ∈ seen
        · simp [hx]
        · have : x ≠ m := fun h => hx (h ▸ hs)
          simp [hx, this]
      · simp only [hm, hs, ne_eq, not_false_eq_true, and_self, if_true, ih (m :: seen),
          decide_True, List.filter_cons_of_pos, firstOccurrences, List.filter_filter]
        congr 1
        apply List.filter_congr
        intro x _
        by_cases hx : x = m
        · simp [hx]
        · simp [hx]

theorem firstOccurrences_mem (l : List String) (m : String) :
    m ∈ firstOccurrences l ↔ m ∈ l := by
  induction l with
  | nil => simp [firstOccurrences]
  | cons a rest ih =>
    simp only [firstOccurrences, List.mem_cons, List.mem_filter, ih, decide_eq_true_eq]
    by_cases h : m = a
    · simp [h]
    · simp [h]

theorem firstOccurrences_nodup (l : List String) : (firstOccurrences l).Nodup := by
  induction l with
  | nil => simp [firstOccurrences]
  | cons a rest ih =>
    simp only [firstOccurrences, List.nodup_cons, List.mem_filter, decide_eq_true_eq]
    exact ⟨fun h => h.2 rfl, ih.filter _⟩


/-- C20: `ModelNames` returns the distinct non-empty entries of `modelNames`, each once
and in the order of first occurrence, joined by `, ` (the separator stands only between
two names); the result is the empty string exactly when `modelNames` has no non-empty
entry.  For `["b", "", "a", "b"]` it returns `b, a`. -/
theorem ModelNames_eq (response : RegistryAPIResponse) :
    ModelNames response =
      Join ", " (firstOccurrences (response.ModelName.filter fun m => decide (m ≠ ""))) ∧
    (firstOccurrences (response.ModelName.filter fun m => decide (m ≠ ""))).Nodup ∧
    (∀ m, m ∈ firstOccurrences (response.ModelName.filter fun m => decide (m ≠ "")) ↔
      (m ∈ response.ModelName ∧ m ≠ "")) ∧
    (ModelNames response = "" ↔ ∀ m ∈ response.ModelName, m = "") ∧
    (∀ a b : String, ∀ l : List String,
      Join ", " [a] = a ∧ Join ", " (a :: b :: l) = a ++ ", " ++ Join ", " (b :: l)) ∧
    ModelNames { emptyResponse with ModelName := ["b", "", "a", "b"] } = "b, a" := by
  have hmain : ModelNames response =
      Join ", " (firstOccurrences (response.ModelName.filter fun m => decide (m ≠ ""))) := by
    have h := modelNamesLoop_eq response.ModelName [] [] (by simp)
    simp only [Join, List.nil_append, newNames_eq, List.not_mem_nil, not_false_eq_true,
      decide_True, List.filter_true] at h
    exact h
  have hmem : ∀ m, m ∈ firstOccurrences (response.ModelName.filter fun m => decide (m ≠ "")) ↔
      (m ∈ response.ModelName ∧ m ≠ "") := by
    intro m
    simp [firstOccurrences_mem, List.mem_filter]
  refine ⟨hmain, firstOccurrences_nodup _, hmem, ?_, fun a b l => ⟨rfl, rfl⟩, by decide⟩
  rw [hmain, Join_eq_empty _ _ (fun a ha => ((hmem a).1 ha).2)]
  constructor
  · intro h m hm
    by_contra hne
    have : m ∈ firstOccurrences (response.ModelName.filter fun m => decide (m ≠ "")) :=
      (hmem m).2 ⟨hm, hne⟩
    rw [h] at this
    simp at this
  · intro h
    cases hl : firstOccurrences (response.ModelName.filter fun m => decide (m ≠ "")) with
    | nil => rfl
    | cons a rest =>
      have ha : a ∈ firstOccurrences (response.ModelName.filter fun m => decide (m ≠ "")) := by
        rw [hl]; exact List.mem_cons_self _ _
      exact absurd (h a ((hmem a).1 ha).1) ((hmem a).1 ha).2


/-! ## Reports that end early, and the spelling of the unknown type -/

/-- C7: for a reply with status 200 that decodes, `registerModel` does not always return.
The reply names the model `Kubernetes`, has no successful model and one relationship
record whose `Kind` is a number: the report is begun (summary and model header) and the
rendering of the relationships panics, so no invalid-model error is returned.  Without
that record the invalid-model error is returned. -/
theorem registerModel_panics_in_report :
    okReply.StatusCode = 200 ∧
    sampleNoModelBadKind.EntityTypeSummary.SuccessfulModels = [] ∧
    (registerModel Env.std
        (sampleWorld (Except.ok okReply) (Except.ok sampleNoModelBadKind) false)
        (some []) none none "model.tar.gz" "file" "" true).val = none ∧
    (registerModel Env.std
        (sampleWorld (Except.ok okReply) (Except.ok sampleNoModelBadKind) false)
        (some []) none none "model.tar.gz" "file" "" true).out =
      [Event.logInfo "\x1b[1mSUMMARY\x1b[0m: Imported 0 models",
       Event.logInfo "\n\x1b[1mMODEL\x1b[0m: Kubernetes"] ∧
    (registerModel Env.std
        (sampleWorld (Except.ok okReply)
          (Except.ok (withRelationships sampleNoModelBadKind [])) false)
        (some []) none none "model.tar.gz" "file" "" true).val =
      some (some Err.invalidModel) :=
  ⟨rfl, rfl, by decide, by decide, by decide⟩

/-- C10: an entity named like the model and of type `unknown` does not always get the
catalog-referral narrative.  In the entry with the names `1` (a number) and `Kubernetes`
and the types `component` and `unknown`, `buildEntityTypeLine` panics on the first name
before it reaches the second entity: nothing is emitted and no line is returned, and
`displayEntities` ends in a panic right after the `MODEL: Kubernetes` header.  With the
string `Istio` in place of the number the narrative is emitted and the line is empty. -/
theorem buildEntityTypeLine_panics_before_unknown :
    (buildEntityTypeLine Env.std [Value.num "1", Value.str "Kubernetes"]
        [Value.str "component", Value.str "unknown"] "model not found" "" ""
        "Kubernetes").val = none ∧
    (buildEntityTypeLine Env.std [Value.num "1", Value.str "Kubernetes"]
        [Value.str "component", Value.str "unknown"] "model not found" "" ""
        "Kubernetes").out = [] ∧
    (displayEntities Env.std (oneErrorReply numberBeforeUnknownEntry)).val = none ∧
    (displayEntities Env.std (oneErrorReply numberBeforeUnknownEntry)).out =
      [Event.logInfo "\x1b[1mSUMMARY\x1b[0m: Imported 1 model",
       Event.logInfo "\n\x1b[1mMODEL\x1b[0m: Kubernetes"] ∧
    (buildEntityTypeLine Env.std [Value.str "Istio", Value.str "Kubernetes"]
        [Value.str "component", Value.str "unknown"] "model not found" "" ""
        "Kubernetes").val = some "" ∧
    (buildEntityTypeLine Env.std [Value.str "Istio", Value.str "Kubernetes"]
        [Value.str "component", Value.str "unknown"] "model not found" "" ""
        "Kubernetes").out =
      [Event.logInfo "\n\x1b[1mERROR\x1b[0m: Error encountered while importing model Kubernetes: \n    model not found\n\n    Ensure that you are importing an existing model.\n    Create a new model to import or find an existing model in the Meshery \x1b]8;;https://meshery.io/catalog/models\x1b\\catalog\x1b]8;;\x1b\\."] :=
  ⟨by decide, by decide, by decide, by decide, by decide, rfl⟩

/-- C11: an entity attributed by name whose type is spelled `Unknown` gets no
catalog-referral narrative.  For the model `Kubernetes` and the error entry with the name
`Kubernetes` and the type `Unknown`, `displayEntities` prints the summary and the model
header and nothing about the entity; with the type spelled `unknown` the narrative is
printed.  The code tests the spelling `Unknown` when it attributes in the no-model bucket
and the spelling `unknown` when it chooses the narrative. -/
theorem displayEntities_Unknown_spelling_unreported :
    (displayEntities Env.std
        (oneErrorReply (errorEntry ["Kubernetes"] ["Unknown"]
          (errorDetail "model not found")))).val = some () ∧
    (displayEntities Env.std
        (oneErrorReply (errorEntry ["Kubernetes"] ["Unknown"]
          (errorDetail "model not found")))).out =
      [Event.logInfo "\x1b[1mSUMMARY\x1b[0m: Imported 1 model",
       Event.logInfo "\n\x1b[1mMODEL\x1b[0m: Kubernetes"] ∧
    (displayEntities Env.std
        (oneErrorReply (errorEntry ["Kubernetes"] ["unknown"]
          (errorDetail "model not found")))).out =
      [Event.logInfo "\x1b[1mSUMMARY\x1b[0m: Imported 1 model",
       Event.logInfo "\n\x1b[1mMODEL\x1b[0m: Kubernetes",
       Event.logInfo "\n\x1b[1mERROR\x1b[0m: Error encountered while importing model Kubernetes: \n    model not found\n\n    Ensure that you are importing an existing model.\n    Create a new model to import or find an existing model in the Meshery \x1b]8;;https://meshery.io/catalog/models\x1b\\catalog\x1b]8;;\x1b\\."] :=
  ⟨by decide, by decide, rfl⟩

end Meshery
